import Mathlib

/-!
Verification of the ollamacode execution pipeline and response cache.

Each Python component under `src/ollamacode/` that the claims touch is
shallowly embedded as executable Lean definitions:

* `cache.py` (`ResponseCache`): association-list model of the in-memory dict
  (Python dicts preserve insertion order); `time.time()` is passed explicitly
  as a rational; the SHA-256 / MD5 hex digests from `hashlib` are external
  primitives and appear as function parameters.
* `execution/intent_analyzer.py`, `execution/result_formatter.py`,
  `execution/error_recovery.py`, `execution/tool_executor.py`,
  `permissions.py`, `tools/bash_ops.py`: embedded below; tool collaborators
  (file system, git, grep, subprocess) are passed as record of functions whose
  results live in `Except String` (`.error` models a raised Python exception).
* Python's `re` module is embedded as a small backtracking engine with
  Python's priority semantics (leftmost start, ordered alternation, greedy
  repetition), specialised to the ASCII pattern tables used by the analyzer.
-/

set_option linter.unusedVariables false

/-- Python whitespace predicate (`str.split`, `str.strip` default): the six
ASCII whitespace characters. -/
def isPyWs (c : Char) : Bool :=
  c == ' ' || c == '\t' || c == '\n' || c.toNat == 13 || c.toNat == 11 || c.toNat == 12

/-- Python `str.lower()` for the ASCII range (all analyzed inputs are ASCII). -/
def pyLower (s : String) : String := String.mk (s.data.map Char.toLower)

/-- Trim `isPyWs` characters from both ends of a character list. -/
def trimWsL (l : List Char) : List Char :=
  ((l.dropWhile isPyWs).reverse.dropWhile isPyWs).reverse

/-- Python `str.strip()` (no argument: strips whitespace at both ends). -/
def pyStrip (s : String) : String := String.mk (trimWsL s.data)

/-- Python `str.rstrip()`. -/
def pyRstrip (s : String) : String :=
  String.mk ((s.data.reverse.dropWhile isPyWs).reverse)

/-- Boolean test that the first list is a leading segment of the second. -/
def listPrefixOf : List Char → List Char → Bool
  | [], _ => true
  | _ :: _, [] => false
  | a :: as, b :: bs => a == b && listPrefixOf as bs

/-- Boolean substring containment on character lists. -/
def listHasSub (sub : List Char) : List Char → Bool
  | [] => listPrefixOf sub []
  | c :: rest => listPrefixOf sub (c :: rest) || listHasSub sub rest

/-- Python's `sub in s` substring test for strings. -/
def pyIn (sub s : String) : Bool := listHasSub sub.data s.data

/-- Worker for `pyWords`: `acc` holds the reversed characters of the word
currently being read. -/
def pyWordsGo : List Char → List Char → List (List Char)
  | [], acc => if acc.isEmpty then [] else [acc.reverse]
  | c :: cs, acc =>
    if isPyWs c then
      if acc.isEmpty then pyWordsGo cs [] else acc.reverse :: pyWordsGo cs []
    else pyWordsGo cs (c :: acc)

/-- Python `str.split()` with no argument: maximal runs of non-whitespace
characters, with all whitespace discarded. -/
def pyWords (l : List Char) : List (List Char) := pyWordsGo l []

/-- Length of the maximal leading run satisfying `p`. -/
def countWhile (p : Char → Bool) : List Char → ℕ
  | [] => 0
  | c :: rest => if p c then countWhile p rest + 1 else 0

/-- Drop an expected literal prefix, returning the remainder on success. -/
def litDrop : List Char → List Char → Option (List Char)
  | [], s => some s
  | _ :: _, [] => none
  | a :: as, b :: bs => if a = b then litDrop as bs else none

/-- Double quote, backtick or single quote (the bash extraction quote class). -/
def isQuoteBQ (c : Char) : Bool := c.toNat == 34 || c.toNat == 96 || c.toNat == 39

/-! ## ResponseCache (`cache.py`) -/

/-- A single cache entry with metadata (`CacheEntry` in `cache.py`);
`timestamp` is the `time.time()` float, modelled as a rational. -/
structure CacheEntry where
  content : String
  timestamp : ℚ
  hit_count : ℕ
  ttl_seconds : ℤ
deriving DecidableEq

/-- The in-memory cache dict `_memory_cache`, modelled as an insertion-ordered
association list with unique keys (Python dicts preserve insertion order). -/
abbrev CacheDict := List (String × CacheEntry)

/-- Python `dict.get`. -/
def dictGet (k : String) : CacheDict → Option CacheEntry
  | [] => none
  | (k', v') :: rest => if k' = k then some v' else dictGet k rest

/-- Python `dict[k] = v`: overwrite in place if the key is present (keeping its
position), otherwise append at the end. -/
def dictSet (k : String) (v : CacheEntry) : CacheDict → CacheDict
  | [] => [(k, v)]
  | (k', v') :: rest => if k' = k then (k', v) :: rest else (k', v') :: dictSet k v rest

/-- Python `del dict[k]` (keys are unique, so deleting the first hit suffices). -/
def dictDel (k : String) : CacheDict → CacheDict
  | [] => []
  | (k', v') :: rest => if k' = k then rest else (k', v') :: dictDel k rest

/-- `ResponseCache._generate_key`: normalize the prompt with
`" ".join(prompt.strip().split())`, build `"<prompt>|<model>|<context>"` and
keep the first 16 hex characters of its SHA-256 digest.  The digest
`hashlib.sha256(...).hexdigest()` is external and passed as `sha256hex`. -/
def generate_key (sha256hex : String → String) (prompt model context_hash : String) : String :=
  let normalized_prompt := String.mk (List.intercalate [' '] (pyWords (pyStrip prompt).data))
  let key_string := normalized_prompt ++ "|" ++ model ++ "|" ++ context_hash
  String.mk ((sha256hex key_string).data.take 16)

/-- A conversation message; the code only ever serialises the `role` and
`content` fields of the message dicts. -/
structure Message where
  role : String
  content : String
deriving DecidableEq

/-- Lower-case hex digit, as produced by Python's `%x`/`json` escapes. -/
def hexDigit (n : ℕ) : Char :=
  if n < 10 then Char.ofNat (48 + n) else Char.ofNat (87 + n)

/-- Four lower-case hex digits of `n % 65536`, most significant first. -/
def hex4 (n : ℕ) : List Char :=
  [hexDigit (n / 4096 % 16), hexDigit (n / 256 % 16), hexDigit (n / 16 % 16), hexDigit (n % 16)]

/-- Escape of one character inside a JSON string literal, exactly as
`json.dumps` (default `ensure_ascii=True`) produces it: two-character escapes
for quote, backslash and the five control shorthands; `\uXXXX` for every other
character outside printable ASCII `0x20..0x7e`, with surrogate pairs above
`0xFFFF`. -/
def escChar (c : Char) : List Char :=
  let n := c.toNat
  if n = 34 then [Char.ofNat 92, Char.ofNat 34]
  else if n = 92 then [Char.ofNat 92, Char.ofNat 92]
  else if n = 10 then [Char.ofNat 92, 'n']
  else if n = 13 then [Char.ofNat 92, 'r']
  else if n = 9 then [Char.ofNat 92, 't']
  else if n = 8 then [Char.ofNat 92, 'b']
  else if n = 12 then [Char.ofNat 92, 'f']
  else if n < 32 ∨ 126 < n then
    if n < 65536 then Char.ofNat 92 :: 'u' :: hex4 n
    else
      Char.ofNat 92 :: 'u' :: hex4 (55296 + (n - 65536) / 1024) ++
        (Char.ofNat 92 :: 'u' :: hex4 (56320 + (n - 65536) % 1024))
  else [c]

/-- JSON string literal for `s`: quote, escaped characters, quote. -/
def jsonQuote (s : String) : List Char :=
  Char.ofNat 34 :: (s.data.map escChar).flatten ++ [Char.ofNat 34]

/-- `json.dumps` of one message dict `{"role": ..., "content": ...}` (Python
dicts keep insertion order; default separators use `": "`). -/
def msgJson (m : Message) : List Char :=
  "\x7b\"role\": ".data ++ jsonQuote m.role ++ ", \"content\": ".data ++
    jsonQuote m.content ++ "\x7d".data

/-- `json.dumps` of the message list (default separator `", "`). -/
def pyJsonDumps (msgs : List Message) : String :=
  String.mk (Char.ofNat 91 :: List.intercalate ", ".data (msgs.map msgJson) ++ [Char.ofNat 93])

/-- `ResponseCache._get_context_hash`: JSON of the last five messages with the
`system`-role ones filtered out, then the first 8 hex characters of the MD5
digest (external, passed as `md5hex`). -/
def get_context_hash (md5hex : String → String) (messages : List Message) : String :=
  let recent_messages := if messages.length > 5 then messages.drop (messages.length - 5) else messages
  let context_str := pyJsonDumps (recent_messages.filter (fun m => m.role ≠ "system"))
  String.mk ((md5hex context_str).data.take 8)

/-- In-memory state of `ResponseCache` (the JSON file on disk is external
side-effecting persistence and is not part of the claims). -/
structure ResponseCache where
  max_entries : ℕ
  entries : CacheDict
deriving DecidableEq

/-- A freshly constructed cache with no pre-existing cache file: `_load_cache`
finds nothing and the dict starts empty; `max_entries` defaults to 1000. -/
def freshCache : ResponseCache := ⟨1000, []⟩

/-- Stable insertion by ascending timestamp: the new element goes after every
element whose timestamp is `≤` its own. -/
def insertByTs (x : String × CacheEntry) : CacheDict → CacheDict
  | [] => [x]
  | y :: ys => if x.2.timestamp < y.2.timestamp then x :: y :: ys else y :: insertByTs x ys

/-- Python's stable `sorted(items, key=lambda x: x[1].timestamp)`. -/
def sortByTs (l : CacheDict) : CacheDict :=
  l.foldl (fun acc x => insertByTs x acc) []

/-- `ResponseCache._evict_if_needed`: when over `max_entries`, sort by
timestamp ascending and delete the oldest `count - max_entries` keys from the
dict (deletion keeps the order of the remaining entries). -/
def evict_if_needed (max_entries : ℕ) (l : CacheDict) : CacheDict :=
  if l.length ≤ max_entries then l
  else
    let sorted_entries := sortByTs l
    let to_remove := (sorted_entries.take (l.length - max_entries)).map Prod.fst
    l.filter (fun p => !(to_remove.contains p.1))

/-- `ResponseCache.get`: fingerprint lookup, lazy TTL expiry (delete and miss
when `now - timestamp > ttl`), and on a hit a hit-count increment plus
timestamp refresh, mutating the entry in place.  The two `time.time()` reads
inside `get` are modelled as the single instant `now`. -/
def cache_get (sha256hex md5hex : String → String) (now : ℚ) (prompt model : String)
    (messages : List Message) (c : ResponseCache) : Option String × ResponseCache :=
  let context_hash := get_context_hash md5hex messages
  let cache_key := generate_key sha256hex prompt model context_hash
  match dictGet cache_key c.entries with
  | none => (none, c)
  | some entry =>
    if now - entry.timestamp > (entry.ttl_seconds : ℚ) then
      (none, { c with entries := dictDel cache_key c.entries })
    else
      let updated : CacheEntry :=
        { entry with hit_count := entry.hit_count + 1, timestamp := now }
      (some entry.content, { c with entries := dictSet cache_key updated c.entries })

/-- The in-place mutation `entry.hit_count += 1; entry.timestamp = now`
performed by `ResponseCache.get` on a hit. -/
def updatedEntry (e : CacheEntry) (now : ℚ) : CacheEntry :=
  { e with hit_count := e.hit_count + 1, timestamp := now }

/-- `ResponseCache.set`: overwrite/create the entry with `hit_count = 0`, the
current timestamp and the given TTL, then evict synchronously (the final
best-effort `_save_cache` disk write is external). -/
def cache_set (sha256hex md5hex : String → String) (now : ℚ)
    (prompt model response : String) (messages : List Message) (ttl_seconds : ℤ)
    (c : ResponseCache) : ResponseCache :=
  let context_hash := get_context_hash md5hex messages
  let cache_key := generate_key sha256hex prompt model context_hash
  let entry : CacheEntry := ⟨response, now, 0, ttl_seconds⟩
  { c with entries := evict_if_needed c.max_entries (dictSet cache_key entry c.entries) }

/-- `ResponseCache.is_cacheable`: reject when the lowered prompt contains one
of six fixed substrings. -/
def non_cacheable_patterns : List String :=
  ["current time", "now", "today", "random", "generate uuid", "timestamp"]

/-- `ResponseCache.is_cacheable`. -/
def is_cacheable (prompt : String) : Bool :=
  !(non_cacheable_patterns.any (fun pattern => pyIn pattern (pyLower prompt)))

/-- The full fingerprint of a `(prompt, model, messages)` triple, as computed
identically by `ResponseCache.get` and `ResponseCache.set`. -/
def cacheKey (sha256hex md5hex : String → String) (prompt model : String)
    (messages : List Message) : String :=
  generate_key sha256hex prompt model (get_context_hash md5hex messages)

/-! ## A fragment of Python's `re` module

The analyzer's pattern tables use only character classes, literals, ordered
alternation, concatenation and greedy repetition.  `reMatch` implements
Python's backtracking priority semantics for exactly these constructs:
alternatives are tried left to right, repetition prefers consuming more, and
`re.search` takes the earliest starting position.  -/

/-- The single-quote character, kept out of string literals. -/
def sglq : String := String.mk [Char.ofNat 39]

/-- Regular-expression AST for the analyzer patterns. -/
inductive Re where
  | eps : Re
  | cls : (Char → Bool) → Re
  | lit : List Char → Re
  | cat : Re → Re → Re
  | alt : Re → Re → Re
  | star : Re → Re

/-- Greedy `?` (prefer consuming). -/
def Re.quest (r : Re) : Re := .alt r .eps

/-- Greedy `+`. -/
def Re.plus (r : Re) : Re := .cat r (.star r)

/-- Concatenation of a pattern list. -/
def catL (l : List Re) : Re := l.foldr .cat .eps

/-- Ordered alternation of a pattern list (first alternative preferred). -/
def altL : List Re → Re
  | [] => .cls (fun _ => false)
  | [r] => r
  | r :: rest => .alt r (altL rest)

/-- Backtracking matcher: `rs` is the continuation stack of regexes still to
match against `s`; the result is the unmatched suffix for the
highest-priority complete match.  `fuel` bounds recursion depth; all call
sites use `reFuel`, ample for these patterns (whose starred bodies always
consume at least one character). -/
def reMatch : ℕ → List Re → List Char → Option (List Char)
  | _, [], s => some s
  | 0, _ :: _, _ => none
  | fuel + 1, r :: rs, s =>
    match r with
    | .eps => reMatch fuel rs s
    | .cls p =>
      match s with
      | [] => none
      | c :: rest => if p c then reMatch fuel rs rest else none
    | .lit l => if listPrefixOf l s then reMatch fuel rs (s.drop l.length) else none
    | .cat a b => reMatch fuel (a :: b :: rs) s
    | .alt a b =>
      match reMatch fuel (a :: rs) s with
      | some res => some res
      | none => reMatch fuel (b :: rs) s
    | .star a =>
      match reMatch fuel (a :: .star a :: rs) s with
      | some res => some res
      | none => reMatch fuel rs s

/-- Structural size of a pattern, used to compute ample fuel. -/
def Re.size : Re → ℕ
  | .eps => 1
  | .cls _ => 1
  | .lit _ => 1
  | .cat a b => a.size + b.size + 1
  | .alt a b => a.size + b.size + 1
  | .star a => a.size + 1

/-- Ample fuel for matching `r` against `s`. -/
def reFuel (r : Re) (s : List Char) : ℕ := (r.size + 2) * (s.length + 2) * 4

/-- `re.search` scan: try each start position left to right, returning the
`(start, stop)` span of the first match. -/
def reSearchAux (r : Re) (whole : ℕ) : List Char → ℕ → Option (ℕ × ℕ)
  | s, i =>
    match reMatch (reFuel r s) [r] s with
    | some rest => some (i, whole - rest.length)
    | none =>
      match s with
      | [] => none
      | _ :: t => reSearchAux r whole t (i + 1)

/-- `re.search(r, s)` span. -/
def reSearch (r : Re) (s : List Char) : Option (ℕ × ℕ) :=
  reSearchAux r s.length s 0

/-- Length matched by an anchored (`^`) pattern at the start of `s`. -/
def reMatchPrefixLen (r : Re) (s : List Char) : Option ℕ :=
  (reMatch (reFuel r s) [r] s).map (fun rest => s.length - rest.length)

/-- Python `\w` over the ASCII range handled by the analyzer. -/
def isWordChar (c : Char) : Bool := c.isAlphanum || c == '_'

/-! ## IntentAnalyzer (`execution/intent_analyzer.py`) -/

/-- `ToolType` enum. -/
inductive ToolType where
  | FILE_OP
  | GIT_OP
  | SEARCH_OP
  | BASH_OP
  | NONE
deriving DecidableEq

/-- `ToolType.value` strings. -/
def ToolType.value : ToolType → String
  | .FILE_OP => "file_operation"
  | .GIT_OP => "git_operation"
  | .SEARCH_OP => "search_operation"
  | .BASH_OP => "bash_operation"
  | .NONE => "none"

/-- Python `str(ToolType.X)` as interpolated in the no-handler message. -/
def ToolType.pyStr : ToolType → String
  | .FILE_OP => "ToolType.FILE_OP"
  | .GIT_OP => "ToolType.GIT_OP"
  | .SEARCH_OP => "ToolType.SEARCH_OP"
  | .BASH_OP => "ToolType.BASH_OP"
  | .NONE => "ToolType.NONE"

/-- `ToolIntent` dataclass; `confidence` is a rational standing for the float
literals 0.6–1.0, `context` models the string-valued context dict. -/
structure ToolIntent where
  type : ToolType
  action : String
  target : String
  confidence : ℚ
  context : List (String × String) := []
deriving DecidableEq

/-- `\s+`. -/
def wsP : Re := Re.plus (.cls isPyWs)

/-- `\s*`. -/
def wsS : Re := .star (.cls isPyWs)

/-- `\w+`. -/
def wdP : Re := Re.plus (.cls isWordChar)

/-- String literal pattern. -/
def L (s : String) : Re := .lit s.data

/-- `(?:the\s+)?`. -/
def optThe : Re := Re.quest (catL [L "the", wsP])

/-- `(?:a\s+)?`. -/
def optA : Re := Re.quest (catL [L "a", wsP])

/-- `\'?`. -/
def aposRe : Re := Re.quest (.cls (fun c => c.toNat == 39))

/-- Literal dot `\.`. -/
def dotRe : Re := L "."

/-- `["\']` (double or single quote). -/
def quoteCls : Re := .cls (fun c => c.toNat == 34 || c.toNat == 39)

/-- `[^"\']+`. -/
def nonQuoteP : Re := Re.plus (.cls (fun c => !(c.toNat == 34 || c.toNat == 39)))

/-- `FILE_PATTERNS` (dict order `create`, `read`, `edit`; patterns in source
order). -/
def FILE_PATTERNS : List (String × List Re) :=
  [("create",
    [catL [altL [L "write", L "create", L "make", L "generate"], wsP, optA,
       altL [L "file", L "script", L "program"]],
     catL [L "write", wsP, optA, altL [L "script", L "program", L "file"]],
     catL [L "create", wsP, optA, altL [L "script", L "program", L "file"]],
     catL [L "save", wsP, Re.quest (catL [L "to", wsP]), L "file"],
     catL [L "make", wsP, optA, L "script"],
     catL [L "generate", wsP, optA, wdP, wsP, L "file"],
     catL [L "create", wsP, optA, wdP, wsP, altL [L "script", L "file", L "program"]]]),
   ("read",
    [catL [altL [L "read", L "show", L "open", L "display", L "view"], wsP, optThe,
       altL [L "file", catL [Re.quest (L "@"), wdP, dotRe, wdP]]],
     catL [L "content", wsP, L "of", wsP, wdP, dotRe, wdP],
     catL [L "show", wsP, L "me", wsP,
       altL [catL [Re.quest (L "@"), wdP, dotRe, wdP],
         catL [optThe, altL [L "file", L "code"]]]],
     catL [L "what", aposRe, L "s", wsP, L "in", wsP, wdP, dotRe, wdP],
     catL [L "@", wdP, dotRe, wdP]]),
   ("edit",
    [catL [altL [L "edit", L "modify", L "change", L "update"], wsP, optThe,
       altL [L "file", catL [Re.quest (L "@"), wdP, dotRe, wdP]]],
     catL [altL [L "edit", L "modify", L "change", L "update"], wsP, wdP, dotRe, wdP],
     catL [L "fix", wsP, optThe, L "file"]])]

/-- `GIT_PATTERNS` (dict order `status`, `diff`, `log`). -/
def GIT_PATTERNS : List (String × List Re) :=
  [("status",
    [catL [L "git", wsP, L "status"],
     catL [L "repo", Re.quest (L "sitory"), wsP, L "status"],
     catL [L "what", wsP, Re.quest (catL [L "files", wsP]),
       Re.quest (catL [L "have", wsP]), L "changed"],
     catL [L "show", wsP, Re.quest (catL [L "me", wsP]),
       Re.quest (catL [L "git", wsP]), L "status"],
     catL [L "current", wsP, Re.quest (catL [L "git", wsP]), L "status"]]),
   ("diff",
    [catL [L "git", wsP, L "diff"],
     catL [L "show", wsP, Re.quest (catL [L "me", wsP]), optThe, L "diff"],
     catL [L "what", wsP, Re.quest (catL [L "are", wsP]), optThe, L "changes"],
     catL [L "diff", wsP, Re.quest (catL [L "of", wsP]), L "changes"]]),
   ("log",
    [catL [L "git", wsP, L "log"],
     catL [Re.quest (catL [L "commit", wsP]), L "history"],
     catL [L "recent", wsP, L "commits"],
     catL [L "show", wsP, Re.quest (catL [L "me", wsP]), optThe, L "log"]])]

/-- `SEARCH_PATTERNS`. -/
def SEARCH_PATTERNS : List (String × List Re) :=
  [("grep",
    [catL [altL [L "find", L "search", L "grep", catL [L "look", wsP, L "for"], L "locate"],
       wsP],
     catL [L "search", wsP, L "for", wsP],
     catL [L "find", wsP, Re.quest (catL [L "all", wsP]),
       altL [catL [L "instances", wsP, L "of"], catL [L "occurrences", wsP, L "of"]]],
     catL [L "where", wsP, L "is", wsP]])]

/-- `["\x60\']?` (optional double quote, backtick or single quote). -/
def bashQuote : Re := Re.quest (.cls (fun c => c.toNat == 34 || c.toNat == 96 || c.toNat == 39))

/-- `BASH_PATTERNS`. -/
def BASH_PATTERNS : List (String × List Re) :=
  [("run",
    [catL [altL [L "run", L "execute"], wsP, optThe, L "command"],
     catL [altL [L "run", L "execute"], wsP, bashQuote,
       altL [L "npm", L "pip", L "python", L "node", L "cargo", L "go"]],
     catL [L "get", wsP, Re.quest (catL [L "my", wsP]),
       Re.quest (catL [L "current", wsP]), altL [L "pwd", L "directory"]],
     catL [L "what", wsS, aposRe, L "s", wsP, Re.quest (catL [L "my", wsP]),
       Re.quest (catL [L "current", wsP]), altL [L "pwd", L "directory"]],
     catL [L "run", wsP, wdP],
     catL [L "execute", wsP, wdP]])]

/-- First pattern of the list matching anywhere in `low` (source order). -/
def firstMatch : List Re → List Char → Option (ℕ × ℕ)
  | [], _ => none
  | p :: ps, low =>
    match reSearch p low with
    | some g => some g
    | none => firstMatch ps low

/-- First action whose pattern list matches (dict order). -/
def findPatternMatch (patterns : List (String × List Re)) (low : List Char) :
    Option (String × ℕ × ℕ) :=
  match patterns with
  | [] => none
  | (action, pats) :: rest =>
    match firstMatch pats low with
    | some g => some (action, g)
    | none => findPatternMatch rest low

/-- `@(\w+\.\w+)`. -/
def fileRefRe : Re := catL [L "@", wdP, dotRe, wdP]

/-- One attempt of `\b(\w+\.\w+)\b` at the current position: a maximal word
run, then a dot, then at least one word character (the trailing boundary is
automatic after a maximal `\w+` run, and a shorter first run cannot make the
dot match). -/
def fnameTokAt (s : List Char) : Option (List Char) :=
  let w1 := countWhile isWordChar s
  if w1 = 0 then none
  else
    match s.drop w1 with
    | c :: rest =>
      if c = '.' then
        let w2 := countWhile isWordChar rest
        if w2 = 0 then none
        else some (s.take w1 ++ '.' :: rest.take w2)
      else none
    | [] => none

/-- Left-to-right scan for the first `\b(\w+\.\w+)\b` token; the flag records
whether the current position is preceded by a non-word character (or is the
start). -/
def fnameTokScan : Bool → List Char → Option (List Char)
  | _, [] => none
  | boundaryOk, c :: rest =>
    if boundaryOk then
      match fnameTokAt (c :: rest) with
      | some tok => some tok
      | none => fnameTokScan (!isWordChar c) rest
    else fnameTokScan (!isWordChar c) rest

/-- `IntentAnalyzer._extract_filename`: an `@name.ext` reference first, else
the first `word.ext` token of the raw text. -/
def extract_filename (text : String) : Option String :=
  match reSearch fileRefRe text.data with
  | some g => some (String.mk ((text.data.drop (g.1 + 1)).take (g.2 - g.1 - 1)))
  | none =>
    match fnameTokScan true text.data with
    | some tok => some (String.mk tok)
    | none => none

/-- `["\']([^"\']+)["\']`. -/
def quotedGroupRe : Re := catL [quoteCls, nonQuoteP, quoteCls]

/-- The capture of the first quoted substring, if any. -/
def extract_quoted (s : List Char) : Option (List Char) :=
  match reSearch quotedGroupRe s with
  | some g => some ((s.drop (g.1 + 1)).take (g.2 - g.1 - 2))
  | none => none

/-- `^(\w+(?:\s+\w+)*)`. -/
def wordPhraseRe : Re := catL [wdP, .star (catL [wsP, wdP])]

/-- `IntentAnalyzer._extract_search_term`: after the matched span of the raw
text (stripped), a quoted substring first, else the leading word phrase. -/
def extract_search_term (text : String) (matchEnd : ℕ) : Option String :=
  let after_match := trimWsL (text.data.drop matchEnd)
  match extract_quoted after_match with
  | some q => some (String.mk q)
  | none =>
    match reMatchPrefixLen wordPhraseRe after_match with
    | some n => some (String.mk (after_match.take n))
    | none => none

/-- The known-binary tokens looked for inside a bash match. -/
def known_cmds : List String := ["npm", "pip", "python", "node", "cargo", "go"]

/-- `(npm|pip|python|node|cargo|go)(?:\s+[\w\-]+)*`. -/
def cmdRe : Re :=
  catL [altL [L "npm", L "pip", L "python", L "node", L "cargo", L "go"],
    .star (catL [wsP, Re.plus (.cls (fun c => isWordChar c || c == '-'))])]

/-- `IntentAnalyzer._extract_command`: a known binary inside the matched span
(of the lowered input) first, else a quoted command after the span, else the
literal `pwd` when the span mentions pwd/directory. -/
def extract_command (text : String) (lowData : List Char) (mStart mEnd : ℕ) : Option String :=
  let g0 := (lowData.drop mStart).take (mEnd - mStart)
  let fromCmd : Option String :=
    if known_cmds.any (fun cmd => listHasSub cmd.data g0) then
      match reSearch cmdRe g0 with
      | some g => some (String.mk ((g0.drop g.1).take (g.2 - g.1)))
      | none => none
    else none
  match fromCmd with
  | some r => some r
  | none =>
    let after_match := trimWsL (text.data.drop mEnd)
    match extract_quoted after_match with
    | some q => some (String.mk q)
    | none =>
      if listHasSub "pwd".data g0 || listHasSub "directory".data g0 then some "pwd"
      else none

/-- `IntentAnalyzer._detect_file_intent`. -/
def detect_file_intent (original : String) (low : List Char) : Option ToolIntent :=
  match findPatternMatch FILE_PATTERNS low with
  | none => none
  | some (action, _, _) =>
    let target := (extract_filename original).getD ""
    some { type := .FILE_OP, action := action, target := target,
           confidence := if target ≠ "" then mkRat 9 10 else mkRat 7 10,
           context := [("original_text", original)] }

/-- `IntentAnalyzer._detect_git_intent`. -/
def detect_git_intent (original : String) (low : List Char) : Option ToolIntent :=
  match findPatternMatch GIT_PATTERNS low with
  | none => none
  | some (action, _, _) =>
    some { type := .GIT_OP, action := action, target := "", confidence := mkRat 9 10 }

/-- `IntentAnalyzer._detect_search_intent`. -/
def detect_search_intent (original : String) (low : List Char) : Option ToolIntent :=
  match findPatternMatch SEARCH_PATTERNS low with
  | none => none
  | some (action, _, mEnd) =>
    let target := (extract_search_term original mEnd).getD ""
    some { type := .SEARCH_OP, action := action, target := target,
           confidence := if target ≠ "" then mkRat 4 5 else mkRat 3 5 }

/-- `IntentAnalyzer._detect_bash_intent`. -/
def detect_bash_intent (original : String) (low : List Char) : Option ToolIntent :=
  match findPatternMatch BASH_PATTERNS low with
  | none => none
  | some (action, mStart, mEnd) =>
    let target := (extract_command original low mStart mEnd).getD ""
    some { type := .BASH_OP, action := action, target := target,
           confidence := if target ≠ "" then mkRat 4 5 else mkRat 7 10 }

/-- `IntentAnalyzer.analyze_intent`: categories in the fixed order File → Git
→ Search → Bash, at most one intent per category, `NONE` sentinel when nothing
matches. -/
def analyze_intent (user_input : String) : List ToolIntent :=
  let low := (pyStrip (pyLower user_input)).data
  let intents :=
    (match detect_file_intent user_input low with | some i => [i] | none => []) ++
    (match detect_git_intent user_input low with | some i => [i] | none => []) ++
    (match detect_search_intent user_input low with | some i => [i] | none => []) ++
    (match detect_bash_intent user_input low with | some i => [i] | none => [])
  if intents.isEmpty then
    [{ type := .NONE, action := "none", target := "", confidence := 1 }]
  else intents

/-! ## OutputFormatter (`execution/result_formatter.py`), pure parts -/

/-- Python truthiness of an optional string (`None` and `""` are falsy). -/
def strTruthy : Option String → Bool
  | none => false
  | some s => s ≠ ""

/-- `SearchOperations.grep_files` result entries. -/
structure SearchResult where
  file : String
  line : ℕ
  content : String
deriving DecidableEq

/-- `GitOperations.get_status` result (the collaborator is external; `branch`
is optional to mirror `status.get(\'branch\', \'unknown\')`). -/
structure GitStatus where
  branch : Option String
  is_dirty : Bool
  modified : List String
  staged : List String
  untracked : List String
deriving DecidableEq

/-- `GitOperations.get_log` entries. -/
structure LogEntry where
  hash : String
  message : String
  date : String
deriving DecidableEq

/-- `BashOperations.run_command` result dict; absent keys are `none`. -/
structure CmdResult where
  success : Bool
  returncode : Option ℤ := none
  stdout : Option String := none
  stderr : Option String := none
  error : Option String := none
  command : Option String := none
deriving DecidableEq

/-- `OutputFormatter.format_command_result`. -/
def format_command_result (command output : String) (error : Option String) : String :=
  if strTruthy error then "$ " ++ command ++ "\n\u274c Error: " ++ error.getD ""
  else if pyStrip output = "" then "$ " ++ command ++ "\n(no output)"
  else "$ " ++ command ++ "\n" ++ pyRstrip output

/-- `OutputFormatter.format_search_results`. -/
def format_search_results (pattern : String) (results : List SearchResult)
    (max_results : ℕ := 10) : String :=
  if results.isEmpty then
    "🔍 No matches found for " ++ sglq ++ pattern ++ sglq
  else
    let header := "🔍 Found " ++ toString results.length ++ " matches for " ++
      sglq ++ pattern ++ sglq ++ ":"
    let entryLines := (results.take max_results).map (fun r =>
      "  " ++ r.file ++ ":" ++ toString r.line ++ " - " ++
        String.mk ((pyStrip r.content).data.take 80))
    let lines := header :: entryLines
    let lines := if results.length > max_results then
        lines ++ ["  ... and " ++ toString (results.length - max_results) ++ " more matches"]
      else lines
    String.intercalate "\n" lines

/-- Python `str.capitalize()`: first character upper-cased, the rest lowered
(ASCII range). -/
def pyCapitalize (s : String) : String :=
  match s.data with
  | [] => s
  | c :: rest => String.mk (c.toUpper :: rest.map Char.toLower)

/-- `OutputFormatter.format_error`. -/
def format_error (operation error : String) (suggestions : List String) : String :=
  let lines := ["\u274c " ++ pyCapitalize operation ++ " failed: " ++ error]
  let lines := if suggestions.isEmpty then lines
    else lines ++ ["\n💡 Suggestions:"] ++ suggestions.map (fun sug => "  \u2022 " ++ sug)
  String.intercalate "\n" lines

/-- `OutputFormatter.format_git_status`. -/
def format_git_status (status : GitStatus) : String :=
  let lines := ["📂 Repository: " ++ status.branch.getD "unknown"]
  let lines :=
    if status.is_dirty then
      let lines := if !status.modified.isEmpty then
          lines ++ ["📝 Modified: " ++ String.intercalate ", " status.modified]
        else lines
      let lines := if !status.staged.isEmpty then
          lines ++ ["\u2705 Staged: " ++ String.intercalate ", " status.staged]
        else lines
      if !status.untracked.isEmpty then
        let more := if status.untracked.length > 5 then
            " (+" ++ toString (status.untracked.length - 5) ++ " more)"
          else ""
        lines ++ ["\u2753 Untracked: " ++
          String.intercalate ", " (status.untracked.take 5) ++ more]
      else lines
    else lines ++ ["\u2728 Working tree clean"]
  String.intercalate "\n" lines

/-! ## ErrorRecovery (`execution/error_recovery.py`) -/

/-- `ErrorType` enum. -/
inductive ErrorType where
  | TOOL_NOT_FOUND
  | PERMISSION_DENIED
  | FILE_NOT_FOUND
  | COMMAND_FAILED
  | NETWORK_ERROR
  | TIMEOUT
  | INVALID_INPUT
  | UNKNOWN
deriving DecidableEq

/-- `ERROR_PATTERNS` in dict insertion order. -/
def ERROR_PATTERNS : List (ErrorType × List String) :=
  [(.FILE_NOT_FOUND,
    ["no such file or directory", "file not found", "cannot find file", "no such file:"]),
   (.PERMISSION_DENIED, ["permission denied", "access denied", "not allowed"]),
   (.COMMAND_FAILED, ["command not found", "bad command", "invalid command"]),
   (.TIMEOUT, ["timeout", "timed out", "operation timed out"])]

/-- `ErrorRecovery.classify_error`: first table entry with a lowered-substring
hit, else `UNKNOWN`. -/
def classify_error (error_message : String) : ErrorType :=
  let error_lower := pyLower error_message
  match ERROR_PATTERNS.find? (fun ep => ep.2.any (fun pattern => pyIn pattern error_lower)) with
  | some ep => ep.1
  | none => .UNKNOWN

/-- `ERROR_SUGGESTIONS.get(t, [])`. -/
def ERROR_SUGGESTIONS : ErrorType → List String
  | .FILE_NOT_FOUND =>
    ["Check if the file path is correct",
     "Use tab completion or file browser to find the correct path",
     "Make sure you" ++ sglq ++ "re in the right directory",
     "Try using absolute paths instead of relative paths"]
  | .PERMISSION_DENIED =>
    ["Check file permissions with " ++ sglq ++ "ls -la" ++ sglq,
     "Try running with appropriate permissions",
     "Make sure you own the file or have write access",
     "Contact your system administrator if needed"]
  | .COMMAND_FAILED =>
    ["Check if the command is installed and available",
     "Verify the command syntax is correct",
     "Try using the full path to the command",
     "Check your PATH environment variable"]
  | .TOOL_NOT_FOUND =>
    ["The requested tool may not be available",
     "Try a different approach to accomplish your goal",
     "Check if required dependencies are installed"]
  | .NETWORK_ERROR =>
    ["Check your internet connection",
     "Verify the server/URL is accessible",
     "Try again in a few moments"]
  | .TIMEOUT =>
    ["The operation took too long to complete",
     "Try breaking down the task into smaller parts",
     "Check if the system is under heavy load"]
  | .INVALID_INPUT =>
    ["Check the input format and try again",
     "Refer to the help documentation for correct usage",
     "Try simplifying your request"]
  | .UNKNOWN => []

/-- `ErrorRecovery._file_not_found_fallback`. -/
def file_not_found_fallback (user_input attempted_action : String) : String :=
  if pyIn "read" (pyLower attempted_action) then
    "I couldn" ++ sglq ++ "t find the requested file. Would you like me to help you:\n" ++
    "\u2022 Search for files with similar names\n" ++
    "\u2022 List files in the current directory\n" ++
    "\u2022 Create the file if it should exist"
  else if pyIn "edit" (pyLower attempted_action) then
    "The file doesn" ++ sglq ++ "t exist yet. I can help you:\n" ++
    "\u2022 Create a new file with that name\n" ++
    "\u2022 Search for files with similar names\n" ++
    "\u2022 Check if you meant a different file"
  else
    "The requested file wasn" ++ sglq ++ "t found. Let me know how you" ++ sglq ++
    "d like to proceed."

/-- `ErrorRecovery._command_failed_fallback`. -/
def command_failed_fallback (user_input attempted_action : String) : String :=
  "The command couldn" ++ sglq ++ "t be executed. This might be because:\n" ++
  "\u2022 The command isn" ++ sglq ++ "t installed or available\n" ++
  "\u2022 There" ++ sglq ++ "s a syntax error in the command\n" ++
  "\u2022 The command requires different permissions\n\n" ++
  "Would you like me to help you find an alternative approach?"

/-- `ErrorRecovery._permission_denied_fallback`. -/
def permission_denied_fallback (user_input attempted_action : String) : String :=
  "I don" ++ sglq ++ "t have permission to perform this operation. This could be because:\n" ++
  "\u2022 The file/directory requires special permissions\n" ++
  "\u2022 You need to grant permission for file operations\n" ++
  "\u2022 The operation needs elevated privileges\n\n" ++
  "Please check the permissions and try again."

/-- `ErrorRecovery._generate_fallback_response`. -/
def generate_fallback_response (error_type : ErrorType)
    (attempted_action user_input : String) : Option String :=
  match error_type with
  | .FILE_NOT_FOUND => some (file_not_found_fallback user_input attempted_action)
  | .COMMAND_FAILED => some (command_failed_fallback user_input attempted_action)
  | .PERMISSION_DENIED => some (permission_denied_fallback user_input attempted_action)
  | _ => none

/-- `ErrorContext` dataclass (the raised exception is represented by its
`str(e)` message). -/
structure ErrorContext where
  error_type : ErrorType
  original_error : String
  user_input : String
  attempted_action : String
  suggestions : List String
  fallback_response : Option String
deriving DecidableEq

/-- `ErrorRecovery.create_error_context`. -/
def create_error_context (error user_input attempted_action : String) : ErrorContext :=
  let error_type := classify_error error
  ⟨error_type, error, user_input, attempted_action, ERROR_SUGGESTIONS error_type,
    generate_fallback_response error_type attempted_action user_input⟩

/-- `ErrorRecovery.handle_tool_error` (logging is external). -/
def handle_tool_error (error tool_type user_input : String) : String :=
  let error_context := create_error_context error user_input (tool_type ++ " execution")
  if strTruthy error_context.fallback_response then error_context.fallback_response.getD ""
  else
    format_error (tool_type ++ " operation") error_context.original_error
      error_context.suggestions

/-- `ErrorRecovery.should_retry`. -/
def should_retry (error_type : ErrorType) (retry_count : ℕ) : Bool :=
  let budget : ℕ :=
    match error_type with
    | .NETWORK_ERROR => 2
    | .TIMEOUT => 1
    | .UNKNOWN => 1
    | _ => 0
  retry_count < budget

/-! ## ToolExecutor (`execution/tool_executor.py`) -/

/-- `ToolResult.data` payloads as produced by the handlers. -/
inductive DataVal where
  | str (s : String)
  | gitStatus (st : GitStatus)
  | logEntries (l : List LogEntry)
  | searchResults (l : List SearchResult)
  | cmdResult (r : CmdResult)
  | createSpec (target user_input : String)
  | editSpec (target content user_input : String)
deriving DecidableEq

/-- `ToolResult` dataclass. -/
structure ToolResult where
  success : Bool
  data : Option DataVal := none
  error : Option String := none
  formatted_output : Option String := none
  tool_type : Option ToolType := none
  action : Option String := none
deriving DecidableEq

/-- `ExecutionPlan` dataclass. -/
structure ExecutionPlan where
  intents : List ToolIntent
  user_input : String
  needs_ai_response : Bool := true
deriving DecidableEq

/-- The tool collaborators (`FileOperations`, `GitOperations`,
`SearchOperations`, `BashOperations`) and the rich-console file renderer
(`OutputFormatter.format_file_content`, which draws through the external
`rich` console).  A `.error e` result models the collaborator raising an
exception whose `str` is `e`. -/
structure Collabs where
  read_file : String → Except String (Option String)
  is_git_repo : Except String Bool
  get_status : Except String (Option GitStatus)
  get_diff : Except String (Option String)
  get_log : ℕ → Except String (Option (List LogEntry))
  grep_files : String → ℕ → Except String (List SearchResult)
  run_command : String → Except String CmdResult
  render_file : String → String → String

/-- `ToolExecutor._execute_file_operation` (no inner try block: collaborator
exceptions escape to `_execute_intent`). -/
def execute_file_operation (c : Collabs) (intent : ToolIntent) (user_input : String) :
    Except String ToolResult := do
  let action := intent.action
  let target := intent.target
  if action = "read" then
    if target = "" then
      return { success := false,
               error := some "No filename specified for read operation",
               formatted_output :=
                 some ("Please specify which file you" ++ sglq ++ "d like me to read.") }
    else
      match ← c.read_file target with
      | some content =>
        return { success := true, data := some (.str content),
                 formatted_output := some (c.render_file target content),
                 tool_type := some intent.type, action := some action }
      | none =>
        return { success := false,
                 error := some ("Could not read file: " ++ target),
                 formatted_output := some ("\u274c Unable to read file: " ++ target) }
  else if action = "create" then
    return { success := true, data := some (.createSpec target user_input),
             formatted_output := some ("I" ++ sglq ++
               "ll help you create that file. Let me generate appropriate content..."),
             tool_type := some intent.type, action := some action }
  else if action = "edit" then
    if target = "" then
      return { success := false,
               error := some "No filename specified for edit operation",
               formatted_output :=
                 some ("Please specify which file you" ++ sglq ++ "d like me to edit.") }
    else
      match ← c.read_file target with
      | some existing =>
        return { success := true, data := some (.editSpec target existing user_input),
                 formatted_output := some ("I" ++ sglq ++ "ll help you edit " ++ target ++
                   ". Let me analyze the current content..."),
                 tool_type := some intent.type, action := some action }
      | none =>
        return { success := false,
                 error := some ("File not found: " ++ target),
                 formatted_output := some ("\u274c File not found: " ++ target ++
                   ". Would you like me to create it instead?") }
  else
    return { success := false, error := some ("Unknown file operation: " ++ action),
             tool_type := some intent.type, action := some action }

/-- Body of the git handler try block; `.ok none` is the fall-through to the
final "Unknown git operation" return (which sits after the try/except). -/
def gitTryBody (c : Collabs) (intent : ToolIntent) (action : String) :
    Except String (Option ToolResult) := do
  if action = "status" then
    match ← c.get_status with
    | some status =>
      return some { success := true, data := some (.gitStatus status),
                    formatted_output := some (format_git_status status),
                    tool_type := some intent.type, action := some action }
    | none => return none
  else if action = "diff" then
    let diff ← c.get_diff
    if strTruthy diff then
      return some { success := true, data := some (.str (diff.getD "")),
                    formatted_output := some ("📋 Git diff:\n" ++ diff.getD ""),
                    tool_type := some intent.type, action := some action }
    else
      return some { success := true, data := some (.str ""),
                    formatted_output := some "No changes to show (working tree is clean)",
                    tool_type := some intent.type, action := some action }
  else if action = "log" then
    match ← c.get_log 5 with
    | some entries =>
      if entries.isEmpty then return none
      else
        let lines := "📜 Recent commits:" :: entries.map (fun en =>
          "  " ++ String.mk (en.hash.data.take 8) ++ " - " ++ en.message ++
            " (" ++ en.date ++ ")")
        return some { success := true, data := some (.logEntries entries),
                      formatted_output := some (String.intercalate "\n" lines),
                      tool_type := some intent.type, action := some action }
    | none => return none
  else
    return none

/-- `ToolExecutor._execute_git_operation`: repo check outside the try block,
the three actions inside it, unknown-action fall-through after it. -/
def execute_git_operation (c : Collabs) (intent : ToolIntent) (user_input : String) :
    Except String ToolResult := do
  let action := intent.action
  match ← c.is_git_repo with
  | false =>
    return { success := false, error := some "Not in a git repository",
             formatted_output := some "\u274c This directory is not a git repository." }
  | true =>
    match gitTryBody c intent action with
    | .error e =>
      return { success := false, error := some e,
               formatted_output := some ("\u274c Git operation failed: " ++ e),
               tool_type := some intent.type, action := some action }
    | .ok (some r) => return r
    | .ok none =>
      return { success := false, error := some ("Unknown git operation: " ++ action),
               tool_type := some intent.type, action := some action }

/-- The target-recovery loop of the search handler: the first word (lowered)
among for/find/search that still has a word after it. -/
def search_fallback_target : List String → Option String
  | [] => none
  | [_] => none
  | w :: w2 :: rest =>
    if pyLower w ∈ (["for", "find", "search"] : List String) then some w2
    else search_fallback_target (w2 :: rest)

/-- Body of the search handler try block. -/
def searchTryBody (c : Collabs) (intent : ToolIntent) (action target : String) :
    Except String (Option ToolResult) := do
  if action = "grep" then
    let results ← c.grep_files target 10
    return some { success := true, data := some (.searchResults results),
                  formatted_output := some (format_search_results target results 10),
                  tool_type := some intent.type, action := some action }
  else
    return none

/-- `ToolExecutor._execute_search_operation`. -/
def execute_search_operation (c : Collabs) (intent : ToolIntent) (user_input : String) :
    Except String ToolResult := do
  let action := intent.action
  let target :=
    if intent.target = "" then
      (search_fallback_target ((pyWords user_input.data).map String.mk)).getD ""
    else intent.target
  if target = "" then
    return { success := false, error := some "No search pattern specified",
             formatted_output :=
               some ("Please specify what you" ++ sglq ++ "d like me to search for.") }
  else
    match searchTryBody c intent action target with
    | .error e =>
      return { success := false, error := some e,
               formatted_output := some ("\u274c Search failed: " ++ e),
               tool_type := some intent.type, action := some action }
    | .ok (some r) => return r
    | .ok none =>
      return { success := false, error := some ("Unknown search operation: " ++ action),
               tool_type := some intent.type, action := some action }

/-- Matcher for the tail `["\x60\']?([^"\x60\']+)["\x60\']?` of the first
handler extraction pattern at a fixed position (after the consumed
whitespace): the optional opening quote is consumed greedily when present,
and when no group character follows it the engine retries without the quote,
which also fails since the group class excludes quotes; the result is the
group start offset and the group length.  The trailing optional quote takes
nothing from the greedy group. -/
def bp1Rest : List Char → Option (ℕ × ℕ)
  | [] => none
  | c :: rest =>
    if isQuoteBQ c then
      let gn := countWhile (fun d => !isQuoteBQ d) rest
      if gn = 0 then none else some (1, gn)
    else
      let gn := countWhile (fun d => !isQuoteBQ d) (c :: rest)
      if gn = 0 then none else some (0, gn)

/-- Greedy `\s+` with backtracking for the first pattern: try consuming
`w` whitespace characters, longest first, down to one, and match the rest of
the pattern after them.  The group class `[^"\x60\']` admits whitespace, so
shortening `\s+` can succeed where the maximal run fails (the group then
starts with the whitespace given back). -/
def bp1Back (s1 : List Char) : ℕ → Option (ℕ × ℕ)
  | 0 => none
  | w + 1 =>
    match bp1Rest (s1.drop (w + 1)) with
    | some g => some (w + 1 + g.1, g.2)
    | none => bp1Back s1 w

/-- One attempt of the first handler extraction pattern
`(?:run|execute)\s+["\x60\']?([^"\x60\']+)["\x60\']?` at the current
position of the lowered input; the result is the relative start and length of
group 1. -/
def bp1Try (s : List Char) : Option (ℕ × ℕ) :=
  let kw : Option (ℕ × List Char) :=
    match litDrop "run".data s with
    | some s1 => some (3, s1)
    | none =>
      match litDrop "execute".data s with
      | some s1 => some (7, s1)
      | none => none
  match kw with
  | none => none
  | some (off, s1) =>
    match bp1Back s1 (countWhile isPyWs s1) with
    | some g => some (off + g.1, g.2)
    | none => none

/-- Greedy `\s+` with backtracking for the second pattern: `(.+)` needs
one non-newline character after the consumed whitespace, and `\s` accepts
newlines, so the engine shortens the whitespace run until one remains. -/
def bp2Back (s1 : List Char) : ℕ → Option (ℕ × ℕ)
  | 0 => none
  | w + 1 =>
    let gn := countWhile (fun d => !(d == Char.ofNat 10)) (s1.drop (w + 1))
    if gn = 0 then bp2Back s1 w else some (w + 1, gn)

/-- One attempt of the second handler extraction pattern
`(?:run|execute)\s+(.+)` (`.` excludes newline). -/
def bp2Try (s : List Char) : Option (ℕ × ℕ) :=
  let kw : Option (ℕ × List Char) :=
    match litDrop "run".data s with
    | some s1 => some (3, s1)
    | none =>
      match litDrop "execute".data s with
      | some s1 => some (7, s1)
      | none => none
  match kw with
  | none => none
  | some (off, s1) =>
    match bp2Back s1 (countWhile isPyWs s1) with
    | some g => some (off + g.1, g.2)
    | none => none

/-- Leftmost-position scan applying `tryAt` on successive suffixes of the
lowered input and slicing the captured group out of the original text
(`re.IGNORECASE` matches on the lowered text, the group is original text). -/
def relScan (tryAt : List Char → Option (ℕ × ℕ)) (orig : List Char) :
    List Char → ℕ → Option (List Char)
  | low, i =>
    match tryAt low with
    | some g => some ((orig.drop (i + g.1)).take g.2)
    | none =>
      match low with
      | [] => none
      | _ :: t => relScan tryAt orig t (i + 1)

/-- The bash handler command re-extraction from the raw user input: the two
patterns in order, the captured group stripped. -/
def bash_extract_command (user_input : String) : Option String :=
  let orig := user_input.data
  let low := (pyLower user_input).data
  match relScan bp1Try orig low 0 with
  | some g => some (pyStrip (String.mk g))
  | none =>
    match relScan bp2Try orig low 0 with
    | some g => some (pyStrip (String.mk g))
    | none => none

/-- Body of the bash handler try block: run the command and map its fields. -/
def bashTryBody (c : Collabs) (intent : ToolIntent) (action target : String) :
    Except String ToolResult := do
  let result ← c.run_command target
  if result.success then
    return { success := true, data := some (.cmdResult result),
             formatted_output :=
               some (format_command_result target (result.stdout.getD "") result.stderr),
             tool_type := some intent.type, action := some action }
  else
    let error_msg :=
      match result.error with
      | some e => e
      | none => result.stderr.getD "Unknown error"
    return { success := false, error := some error_msg,
             formatted_output := some (format_command_result target "" (some error_msg)),
             tool_type := some intent.type, action := some action }

/-- The try/except around `run_command` in the bash handler. -/
def runBash (c : Collabs) (intent : ToolIntent) (action target : String) :
    Except String ToolResult := do
  match bashTryBody c intent action target with
  | .error e =>
    return { success := false, error := some e,
             formatted_output := some ("\u274c Command execution failed: " ++ e),
             tool_type := some intent.type, action := some action }
  | .ok r => return r

/-- `ToolExecutor._execute_bash_operation`: empty targets are first re-derived
from the user input (extraction patterns, then the pwd special case) and only
then rejected. -/
def execute_bash_operation (c : Collabs) (intent : ToolIntent) (user_input : String) :
    Except String ToolResult := do
  let action := intent.action
  if action = "run" then
    let target :=
      if intent.target = "" then (bash_extract_command user_input).getD ""
      else intent.target
    if target = "" then
      if pyIn "pwd" (pyLower user_input) || pyIn "directory" (pyLower user_input) ||
          pyIn "current" (pyLower user_input) then
        runBash c intent action "pwd"
      else
        return { success := false, error := some "No command specified",
                 formatted_output :=
                   some ("Please specify which command you" ++ sglq ++ "d like me to run.") }
    else
      runBash c intent action target
  else
    return { success := false, error := some ("Unknown bash operation: " ++ action),
             tool_type := some intent.type, action := some action }

/-- The `tool_handlers` dict lookup plus handler call; `NONE` has no handler
and yields the no-handler failure (inside the try, but it cannot raise). -/
def runHandler (c : Collabs) (intent : ToolIntent) (user_input : String) :
    Except String ToolResult :=
  match intent.type with
  | .FILE_OP => execute_file_operation c intent user_input
  | .GIT_OP => execute_git_operation c intent user_input
  | .SEARCH_OP => execute_search_operation c intent user_input
  | .BASH_OP => execute_bash_operation c intent user_input
  | .NONE =>
    .ok { success := false,
          error := some ("No handler for tool type: " ++ ToolType.pyStr .NONE),
          tool_type := some intent.type, action := some intent.action }

/-- `ToolExecutor._execute_intent`: the outer try/except converts any
exception escaping the handler into a failed result carrying
`ErrorRecovery.handle_tool_error` text. -/
def execute_intent (c : Collabs) (intent : ToolIntent) (user_input : String) : ToolResult :=
  match runHandler c intent user_input with
  | .ok r => r
  | .error e =>
    { success := false, error := some e,
      formatted_output := some (handle_tool_error e intent.type.value user_input),
      tool_type := some intent.type, action := some intent.action }

/-- `conversational_indicators`. -/
def conversational_indicators : List String :=
  ["explain", "how", "why", "what", "help me", "can you", "please"]

/-- `ToolExecutor._should_include_ai_response`. -/
def should_include_ai_response (intents : List ToolIntent) (user_input : String) : Bool :=
  if intents.any (fun i => i.type == .FILE_OP && (i.action == "create" || i.action == "edit"))
  then true
  else if intents.length > 1 then true
  else if conversational_indicators.any (fun ind => pyIn ind (pyLower user_input)) then true
  else false

/-- `ToolExecutor.process_request`. -/
def process_request (c : Collabs) (user_input : String) :
    List ToolResult × ExecutionPlan :=
  let intents := analyze_intent user_input
  let plan : ExecutionPlan :=
    ⟨intents, user_input, should_include_ai_response intents user_input⟩
  let results := (intents.filter (fun i => i.type ≠ .NONE)).map
    (fun i => execute_intent c i user_input)
  (results, plan)

/-- `ToolExecutor.format_combined_response`: formatted outputs of successful
results, then of failed results, then (when wanted and non-empty) the model
reply prefixed with an extra newline; blocks joined by a blank line, with a
sentinel when nothing was produced. -/
def format_combined_response (results : List ToolResult) (plan : ExecutionPlan)
    (ai_response : Option String) : String :=
  let parts := (results.filter (fun r => r.success && strTruthy r.formatted_output)).map
    (fun r => r.formatted_output.getD "")
  let failed := results.filter (fun r => !r.success)
  let parts := parts ++ (failed.filter (fun r => strTruthy r.formatted_output)).map
    (fun r => r.formatted_output.getD "")
  let parts :=
    if strTruthy ai_response && plan.needs_ai_response then
      if parts.isEmpty then [ai_response.getD ""]
      else parts ++ ["\n" ++ ai_response.getD ""]
    else parts
  if parts.isEmpty then "No output generated."
  else String.intercalate "\n\n" parts

/-- The amended specification wording of `format_combined_response`:
successful blocks, then failed blocks, joined by exactly one blank line; when
a model reply is wanted and non-empty it follows the blocks separated by two
blank lines (`"\n\n\n"`), or stands alone if there are no blocks; the fixed
sentinel appears when nothing was produced. -/
def format_combined_response_spec (results : List ToolResult) (plan : ExecutionPlan)
    (ai_response : Option String) : String :=
  let success_blocks := (results.filter (fun r => r.success && strTruthy r.formatted_output)).map
    (fun r => r.formatted_output.getD "")
  let failed_blocks := (results.filter (fun r => !r.success && strTruthy r.formatted_output)).map
    (fun r => r.formatted_output.getD "")
  let blocks := success_blocks ++ failed_blocks
  if strTruthy ai_response && plan.needs_ai_response then
    if blocks.isEmpty then ai_response.getD ""
    else String.intercalate "\n\n" blocks ++ "\n\n\n" ++ ai_response.getD ""
  else
    if blocks.isEmpty then "No output generated."
    else String.intercalate "\n\n" blocks

/-! ## PermissionManager (`permissions.py`) -/

/-- `OperationType`: the operations that require permission. -/
inductive OperationType where
  | READ_FILE
  | WRITE_FILE
  | DELETE_FILE
  | EXECUTE_COMMAND
  | GIT_OPERATION
  | NETWORK_REQUEST
deriving DecidableEq

/-- State of `PermissionManager`: operations approved for this session.  The
console output is external rendering and not modelled. -/
structure PermissionManager where
  session_approvals : Finset OperationType

/-- `safe_operations`: read-only file access never needs approval. -/
def safe_operations : Finset OperationType := {OperationType.READ_FILE}

/-- `PermissionManager._request_permission`: the console read either raises
(`KeyboardInterrupt`/`EOFError`, modelled as `.error`) which denies, or yields
a line; after `strip()`, "2" approves for the session (recording the
operation), "3" or a lowered "no" denies, and anything else approves once. -/
def request_permission (pm : PermissionManager) (operation : OperationType)
    (description : String) (userInput : Except Unit String) : Bool × PermissionManager :=
  match userInput with
  | .error _ => (false, pm)
  | .ok raw =>
    let choice := pyStrip raw
    if choice = "2" then (true, ⟨insert operation pm.session_approvals⟩)
    else if choice = "3" ∨ pyLower choice = "no" then (false, pm)
    else (true, pm)

/-- `PermissionManager.check_permission`: safe operations pass with no state
change; already-approved operations pass; `auto_approve` grants and records;
otherwise escalate to `_request_permission`. -/
def check_permission (pm : PermissionManager) (operation : OperationType)
    (description : String) (auto_approve : Bool) (userInput : Except Unit String) :
    Bool × PermissionManager :=
  if operation ∈ safe_operations then (true, pm)
  else if operation ∈ pm.session_approvals then (true, pm)
  else if auto_approve then (true, ⟨insert operation pm.session_approvals⟩)
  else request_permission pm operation description userInput

/-- The three possible outcomes of the interactive escalation. -/
inductive EscalationOutcome where
  | approveOnce
  | approveForSession
  | deny
deriving DecidableEq

/-- Classification of the escalation outcome determined by the console
interaction, mirroring the branch structure of `_request_permission`. -/
def escalationOutcome (userInput : Except Unit String) : EscalationOutcome :=
  match userInput with
  | .error _ => .deny
  | .ok raw =>
    let choice := pyStrip raw
    if choice = "2" then .approveForSession
    else if choice = "3" ∨ pyLower choice = "no" then .deny
    else .approveOnce

/-! ## Specification-side definitions for the fingerprint claim -/

/-- Specification wording of the prompt normalization, first half: every
maximal whitespace run becomes a single space. -/
def squeezeWs (l : List Char) : List Char :=
  match l with
  | [] => []
  | c :: cs =>
    if isPyWs c then ' ' :: squeezeWs (cs.dropWhile isPyWs)
    else c :: squeezeWs cs
termination_by l.length
decreasing_by
  · simp only [List.length_cons]
    exact Nat.lt_succ_of_le (List.dropWhile_sublist _).length_le
  · simp only [List.length_cons]; omega

/-- Remove trailing whitespace. -/
def dropTrailingWs (l : List Char) : List Char :=
  (l.reverse.dropWhile isPyWs).reverse

/-- Specification wording of the normalized prompt: whitespace runs collapsed
to single spaces, the result trimmed. -/
def normalizePromptSpec (p : String) : String :=
  String.mk (trimWsL (squeezeWs p.data))

/-- The spec's "recent non-system context": the last five messages with the
system-role ones excluded. -/
def recentNonSystem (messages : List Message) : List Message :=
  (messages.drop (messages.length - 5)).filter (fun m => m.role ≠ "system")

/-- Numeric value of a lower-case hex digit character (left inverse of
`hexDigit`). -/
def hexVal (c : Char) : ℕ :=
  if c.toNat ≤ 57 then c.toNat - 48 else c.toNat - 87

/-- Decoder for the leading escaped block of a JSON string body: reads one
`escChar` image off the front of the stream and returns the decoded character
together with the remaining stream.  Used only to prove that the
serialisation in `pyJsonDumps` is injective. -/
def unescChar : List Char → Option (Char × List Char)
  | [] => none
  | c :: rest =>
    if c.toNat = 92 then
      match rest with
      | [] => none
      | k :: rest2 =>
        if k.toNat = 117 then
          match rest2 with
          | h1 :: h2 :: h3 :: h4 :: rest3 =>
            let n := hexVal h1 * 4096 + hexVal h2 * 256 + hexVal h3 * 16 + hexVal h4
            if 55296 ≤ n ∧ n ≤ 56319 then
              match rest3 with
              | e1 :: e2 :: g1 :: g2 :: g3 :: g4 :: rest4 =>
                if e1.toNat = 92 ∧ e2.toNat = 117 then
                  some (Char.ofNat (65536 + (n - 55296) * 1024 +
                    (hexVal g1 * 4096 + hexVal g2 * 256 + hexVal g3 * 16 + hexVal g4 - 56320)),
                    rest4)
                else none
              | _ => none
            else some (Char.ofNat n, rest3)
          | _ => none
        else if k.toNat = 34 then some (Char.ofNat 34, rest2)
        else if k.toNat = 92 then some (Char.ofNat 92, rest2)
        else if k.toNat = 110 then some (Char.ofNat 10, rest2)
        else if k.toNat = 114 then some (Char.ofNat 13, rest2)
        else if k.toNat = 116 then some (Char.ofNat 9, rest2)
        else if k.toNat = 98 then some (Char.ofNat 8, rest2)
        else if k.toNat = 102 then some (Char.ofNat 12, rest2)
        else none
    else some (c, rest)

/-- The exact string `_generate_key` hands to SHA-256:
`"<normalized_prompt>|<model>|<context_hash>"`, with the context hash already
computed by `_get_context_hash`. -/
def key_string_of (md5hex : String → String) (prompt model : String)
    (messages : List Message) : String :=
  String.mk (List.intercalate [' '] (pyWords (pyStrip prompt).data)) ++ "|" ++ model ++ "|" ++
    get_context_hash md5hex messages

/-! ### Supporting lemmas about the cache model -/

theorem insertByTs_perm (x : String × CacheEntry) (l : CacheDict) :
    (insertByTs x l).Perm (x :: l) := by
  induction l with
  | nil => simp [insertByTs]
  | cons y ys ih =>
    simp only [insertByTs]
    split
    · exact List.Perm.refl _
    · exact ((ih.cons y).trans (List.Perm.swap x y ys))

theorem sortByTs_foldl_perm (l : CacheDict) :
    ∀ acc : CacheDict, (l.foldl (fun acc x => insertByTs x acc) acc).Perm (l ++ acc) := by
  induction l with
  | nil => intro acc; simp
  | cons x xs ih =>
    intro acc
    simp only [List.foldl_cons, List.cons_append]
    exact ((ih (insertByTs x acc)).trans
      (((insertByTs_perm x acc).append_left xs).trans List.perm_middle))

theorem sortByTs_perm (l : CacheDict) : (sortByTs l).Perm l := by
  simpa using sortByTs_foldl_perm l []

theorem dictGet_dictSet_self (k : String) (v : CacheEntry) (l : CacheDict) :
    dictGet k (dictSet k v l) = some v := by
  induction l with
  | nil => simp [dictSet, dictGet]
  | cons p rest ih =>
    obtain ⟨k', v'⟩ := p
    by_cases h : k' = k
    · simp [dictSet, dictGet, h]
    · simp [dictSet, dictGet, h, ih]

theorem length_evict_if_needed_le (m : ℕ) (l : CacheDict) :
    (evict_if_needed m l).length ≤ m := by
  unfold evict_if_needed
  split
  · omega
  · rename_i hlen
    push_neg at hlen
    set s := sortByTs l with hs
    set k := l.length - m with hk
    set rem := (s.take k).map Prod.fst with hrem
    have hslen : s.length = l.length := (sortByTs_perm l).length_eq
    have htake : ∀ a ∈ s.take k, (fun p : String × CacheEntry => rem.contains p.1) a = true := by
      intro a ha
      have : a.1 ∈ rem := by
        rw [hrem]; exact List.mem_map_of_mem Prod.fst ha
      exact List.elem_eq_true_of_mem this
    have hcount1 : (s.take k).countP (fun p => rem.contains p.1) = (s.take k).length :=
      List.countP_eq_length.mpr htake
    have hcount2 : l.countP (fun p => rem.contains p.1) = s.countP (fun p => rem.contains p.1) :=
      ((sortByTs_perm l).countP_eq _).symm
    have hsplit : s.countP (fun p => rem.contains p.1) =
        (s.take k).countP (fun p => rem.contains p.1) +
        (s.drop k).countP (fun p => rem.contains p.1) := by
      conv_lhs => rw [← List.take_append_drop k s]
      rw [List.countP_append]
    have hklen : (s.take k).length = k := by
      rw [List.length_take]; omega
    have hfil : (l.filter (fun p => !(rem.contains p.1))).length
        = l.countP (fun p => !(rem.contains p.1)) :=
      (List.countP_eq_length_filter _ _).symm
    have htot : l.countP (fun p => rem.contains p.1) +
        l.countP (fun p => !(rem.contains p.1)) = l.length := by
      have h := List.length_eq_countP_add_countP (p := fun p : String × CacheEntry =>
        rem.contains p.1) (l := l)
      have hcongr : l.countP (fun p : String × CacheEntry => ¬ (rem.contains p.1 = true)) =
          l.countP (fun p => !(rem.contains p.1)) := by
        apply List.countP_congr
        intro a _
        simp
      omega
    show (l.filter (fun p => !(rem.contains p.1))).length ≤ m
    omega

theorem listPrefixOf_iff (sub l : List Char) :
    listPrefixOf sub l = true ↔ ∃ rest, l = sub ++ rest := by
  induction sub generalizing l with
  | nil => simp [listPrefixOf]
  | cons a as ih =>
    cases l with
    | nil => simp [listPrefixOf]
    | cons b bs =>
      simp only [listPrefixOf, Bool.and_eq_true, beq_iff_eq, ih, List.cons_append]
      constructor
      · rintro ⟨rfl, rest, rfl⟩
        exact ⟨rest, rfl⟩
      · rintro ⟨rest, heq⟩
        injection heq with h1 h2
        exact ⟨h1.symm, rest, h2⟩

theorem listHasSub_iff (sub l : List Char) :
    listHasSub sub l = true ↔ ∃ pre post, l = pre ++ sub ++ post := by
  induction l with
  | nil =>
    simp only [listHasSub, listPrefixOf_iff]
    constructor
    · rintro ⟨rest, heq⟩
      rcases List.append_eq_nil.mp heq.symm with ⟨h1, h2⟩
      exact ⟨[], [], by simp [h1]⟩
    · rintro ⟨pre, post, heq⟩
      rcases List.append_eq_nil.mp heq.symm with ⟨h1, h2⟩
      rcases List.append_eq_nil.mp h1 with ⟨h3, h4⟩
      exact ⟨[], by simp [h4]⟩
  | cons c rest ih =>
    simp only [listHasSub, Bool.or_eq_true, listPrefixOf_iff, ih]
    constructor
    · rintro (⟨r, heq⟩ | ⟨pre, post, heq⟩)
      · exact ⟨[], r, by simp [heq]⟩
      · exact ⟨c :: pre, post, by simp [heq]⟩
    · rintro ⟨pre, post, heq⟩
      cases pre with
      | nil =>
        left
        exact ⟨post, by simpa using heq⟩
      | cons c' pre' =>
        right
        injection heq with h1 h2
        exact ⟨pre', post, h2⟩

/-- C10: `is_cacheable` is raw substring containment over the lowercased
prompt: it returns `false` exactly when one of the six blocklist strings
occurs anywhere inside the lowered prompt (even inside another word, as in
"Do you know Python?" or "acknowledged", both containing "now"), and `true`
otherwise. -/
theorem C10_is_cacheable_substring :
    (∀ p : String, is_cacheable p = false ↔
      ∃ pat ∈ non_cacheable_patterns, ∃ pre post : List Char,
        (pyLower p).data = pre ++ pat.data ++ post) ∧
    is_cacheable "Do you know Python?" = false ∧
    is_cacheable "acknowledged" = false ∧
    is_cacheable "What is Python?" = true := by
  refine ⟨fun p => ?_, by decide, by decide, by decide⟩
  rw [show (is_cacheable p = false) ↔
      (non_cacheable_patterns.any (fun pattern => pyIn pattern (pyLower p)) = true) by
    simp [is_cacheable]]
  rw [List.any_eq_true]
  constructor
  · rintro ⟨pat, hmem, hin⟩
    exact ⟨pat, hmem, (listHasSub_iff _ _).mp hin⟩
  · rintro ⟨pat, hmem, hdec⟩
    exact ⟨pat, hmem, (listHasSub_iff _ _).mpr hdec⟩

/-- C10 witness: the characterization applied to the prompt "acknowledged"
(whose lowering contains "now" as a raw substring). -/
theorem C10_is_cacheable_substring_witness :
    is_cacheable "acknowledged" = false :=
  C10_is_cacheable_substring.2.2.1

/-- C1: on a freshly constructed cache (no prior `set`, no pre-existing cache
file), `get(P, M, msgs)` is a miss at any time; and immediately after
`set(P, M, R, msgs)` with the default TTL of 3600, `get(P, M, msgs)` returns
`R` as long as no more than 3600 seconds elapsed. -/
theorem C1_cache_round_trip (sha256hex md5hex : String → String)
    (P M R : String) (msgs : List Message) (t t0 t1 : ℚ) (httl : t1 - t0 ≤ 3600) :
    (cache_get sha256hex md5hex t P M msgs freshCache).1 = none ∧
    (cache_get sha256hex md5hex t1 P M msgs
      (cache_set sha256hex md5hex t0 P M R msgs 3600 freshCache)).1 = some R := by
  constructor
  · rfl
  · have h36 : ¬ ((3600 : ℚ) < t1 - t0) := by linarith
    simp [cache_get, cache_set, freshCache, evict_if_needed, dictSet, dictGet, h36]

/-- C1 witness: concrete digests, prompt, model and times. -/
theorem C1_cache_round_trip_witness :
    (cache_get (fun s => s) (fun _ => "d") 7 "hi" "m" [] freshCache).1 = none ∧
    (cache_get (fun s => s) (fun _ => "d") 7 "hi" "m" []
      (cache_set (fun s => s) (fun _ => "d") 5 "hi" "m" "resp" [] 3600 freshCache)).1 =
      some "resp" :=
  C1_cache_round_trip (fun s => s) (fun _ => "d") "hi" "m" "resp" [] 7 5 7 (by norm_num)

theorem cache_set_entries (sha256hex md5hex : String → String) (now : ℚ)
    (P M R : String) (msgs : List Message) (ttl : ℤ) (c : ResponseCache) :
    (cache_set sha256hex md5hex now P M R msgs ttl c).entries =
      evict_if_needed c.max_entries
        (dictSet (cacheKey sha256hex md5hex P M msgs) ⟨R, now, 0, ttl⟩ c.entries) := rfl

theorem cache_get_eq (sha256hex md5hex : String → String) (now : ℚ)
    (P M : String) (msgs : List Message) (c : ResponseCache) :
    cache_get sha256hex md5hex now P M msgs c =
      match dictGet (cacheKey sha256hex md5hex P M msgs) c.entries with
      | none => (none, c)
      | some entry =>
        if now - entry.timestamp > (entry.ttl_seconds : ℚ) then
          (none, { c with entries := dictDel (cacheKey sha256hex md5hex P M msgs) c.entries })
        else
          (some entry.content,
            { c with entries :=
                (dictSet (cacheKey sha256hex md5hex P M msgs) (updatedEntry entry now)
                  c.entries) }) := rfl

theorem cache_get_fst_hit (sha256hex md5hex : String → String) (now : ℚ)
    (P M : String) (msgs : List Message) (c : ResponseCache) (e : CacheEntry)
    (hget : dictGet (cacheKey sha256hex md5hex P M msgs) c.entries = some e)
    (hfresh : now - e.timestamp ≤ (e.ttl_seconds : ℚ)) :
    (cache_get sha256hex md5hex now P M msgs c).1 = some e.content := by
  rw [cache_get_eq, hget]
  have h := not_lt.mpr hfresh
  simp [h]

theorem cache_get_fst_miss (sha256hex md5hex : String → String) (now : ℚ)
    (P M : String) (msgs : List Message) (c : ResponseCache)
    (hget : dictGet (cacheKey sha256hex md5hex P M msgs) c.entries = none) :
    (cache_get sha256hex md5hex now P M msgs c).1 = none := by
  rw [cache_get_eq, hget]

/-- C3: a `get` strictly past an entry's TTL deletes the entry and misses; a
`get` within the TTL increments `hit_count`, refreshes `timestamp` to `now`,
and returns the stored content.  Concretely, after `set(P, M, R, ttl=1)` on a
fresh cache, a `get` within one second returns `R` and a `get` more than one
second later returns `null`. -/
theorem C3_ttl_expiry_and_refresh (sha256hex md5hex : String → String) :
    (∀ (now : ℚ) (P M : String) (msgs : List Message) (c : ResponseCache) (e : CacheEntry),
      dictGet (cacheKey sha256hex md5hex P M msgs) c.entries = some e →
      ((now - e.timestamp > (e.ttl_seconds : ℚ) →
        cache_get sha256hex md5hex now P M msgs c =
          (none, { c with entries := dictDel (cacheKey sha256hex md5hex P M msgs) c.entries })) ∧
       (now - e.timestamp ≤ (e.ttl_seconds : ℚ) →
        cache_get sha256hex md5hex now P M msgs c =
          (some e.content,
            { c with entries :=
                (dictSet (cacheKey sha256hex md5hex P M msgs) (updatedEntry e now)
                  c.entries) })))) ∧
    (∀ (P M R : String) (msgs : List Message) (t0 t1 t2 : ℚ),
      t1 - t0 ≤ 1 → t2 - t0 > 1 →
      (cache_get sha256hex md5hex t1 P M msgs
        (cache_set sha256hex md5hex t0 P M R msgs 1 freshCache)).1 = some R ∧
      (cache_get sha256hex md5hex t2 P M msgs
        (cache_set sha256hex md5hex t0 P M R msgs 1 freshCache)).1 = none) := by
  constructor
  · intro now P M msgs c e hget
    constructor
    · intro hexp
      rw [cache_get_eq, hget]
      simp only [if_pos hexp]
    · intro hfresh
      rw [cache_get_eq, hget]
      simp only [if_neg (not_lt.mpr hfresh)]
  · intro P M R msgs t0 t1 t2 h1 h2
    have hne : ¬ ((1 : ℚ) < t1 - t0) := by linarith
    have hlt : (1 : ℚ) < t2 - t0 := by linarith
    constructor
    · simp [cache_get, cache_set, freshCache, evict_if_needed, dictSet, dictGet, hne]
    · simp [cache_get, cache_set, freshCache, evict_if_needed, dictSet, dictGet, hlt]

/-- C3 witness: a concrete expired entry is deleted on `get`, and the concrete
`ttl=1` scenario at times 0, 1, 2. -/
theorem C3_ttl_expiry_and_refresh_witness :
    (cache_get (fun _ => "KKKKKKKKKKKKKKKK") (fun _ => "dddddddd") 100 "p" "m" []
        ⟨1000, [("KKKKKKKKKKKKKKKK", ⟨"v", 0, 0, 10⟩)]⟩ =
      ((none : Option String), (⟨1000, []⟩ : ResponseCache))) ∧
    (cache_get (fun _ => "KKKKKKKKKKKKKKKK") (fun _ => "dddddddd") 1 "p" "m" []
      (cache_set (fun _ => "KKKKKKKKKKKKKKKK") (fun _ => "dddddddd") 0 "p" "m" "r" [] 1
        freshCache)).1 = some "r" ∧
    (cache_get (fun _ => "KKKKKKKKKKKKKKKK") (fun _ => "dddddddd") 2 "p" "m" []
      (cache_set (fun _ => "KKKKKKKKKKKKKKKK") (fun _ => "dddddddd") 0 "p" "m" "r" [] 1
        freshCache)).1 = none := by
  refine ⟨?_, ?_⟩
  · exact (((C3_ttl_expiry_and_refresh (fun _ => "KKKKKKKKKKKKKKKK")
      (fun _ => "dddddddd")).1 100 "p" "m" []
      ⟨1000, [("KKKKKKKKKKKKKKKK", ⟨"v", 0, 0, 10⟩)]⟩ ⟨"v", 0, 0, 10⟩ (by decide)).1
      (by norm_num)).trans (by decide)
  · exact (C3_ttl_expiry_and_refresh (fun _ => "KKKKKKKKKKKKKKKK") (fun _ => "dddddddd")).2
      "p" "m" "r" [] 0 1 2 (by norm_num) (by norm_num)

/-- C2: after every `set` the number of cache entries is at most
`max_entries`; and in the concrete scenario with `max_entries = 3`, inserting
four prompts with pairwise distinct fingerprints at increasing times evicts
exactly the oldest entry inside `set`, so prompt 0 misses while prompts 1..3
remain retrievable. -/
theorem C2_size_invariant_and_eviction (sha256hex md5hex : String → String) :
    (∀ (now : ℚ) (P M R : String) (msgs : List Message) (ttl : ℤ) (c : ResponseCache),
      ((cache_set sha256hex md5hex now P M R msgs ttl c).entries).length ≤ c.max_entries) ∧
    (∀ (p0 p1 p2 p3 M r0 r1 r2 r3 : String) (msgs : List Message),
      cacheKey sha256hex md5hex p0 M msgs ≠ cacheKey sha256hex md5hex p1 M msgs →
      cacheKey sha256hex md5hex p0 M msgs ≠ cacheKey sha256hex md5hex p2 M msgs →
      cacheKey sha256hex md5hex p0 M msgs ≠ cacheKey sha256hex md5hex p3 M msgs →
      cacheKey sha256hex md5hex p1 M msgs ≠ cacheKey sha256hex md5hex p2 M msgs →
      cacheKey sha256hex md5hex p1 M msgs ≠ cacheKey sha256hex md5hex p3 M msgs →
      cacheKey sha256hex md5hex p2 M msgs ≠ cacheKey sha256hex md5hex p3 M msgs →
      (cache_get sha256hex md5hex 4 p0 M msgs
        (cache_set sha256hex md5hex 3 p3 M r3 msgs 3600
          (cache_set sha256hex md5hex 2 p2 M r2 msgs 3600
            (cache_set sha256hex md5hex 1 p1 M r1 msgs 3600
              (cache_set sha256hex md5hex 0 p0 M r0 msgs 3600 ⟨3, []⟩))))).1 = none ∧
      (cache_get sha256hex md5hex 4 p1 M msgs
        (cache_set sha256hex md5hex 3 p3 M r3 msgs 3600
          (cache_set sha256hex md5hex 2 p2 M r2 msgs 3600
            (cache_set sha256hex md5hex 1 p1 M r1 msgs 3600
              (cache_set sha256hex md5hex 0 p0 M r0 msgs 3600 ⟨3, []⟩))))).1 = some r1 ∧
      (cache_get sha256hex md5hex 4 p2 M msgs
        (cache_set sha256hex md5hex 3 p3 M r3 msgs 3600
          (cache_set sha256hex md5hex 2 p2 M r2 msgs 3600
            (cache_set sha256hex md5hex 1 p1 M r1 msgs 3600
              (cache_set sha256hex md5hex 0 p0 M r0 msgs 3600 ⟨3, []⟩))))).1 = some r2 ∧
      (cache_get sha256hex md5hex 4 p3 M msgs
        (cache_set sha256hex md5hex 3 p3 M r3 msgs 3600
          (cache_set sha256hex md5hex 2 p2 M r2 msgs 3600
            (cache_set sha256hex md5hex 1 p1 M r1 msgs 3600
              (cache_set sha256hex md5hex 0 p0 M r0 msgs 3600 ⟨3, []⟩))))).1 = some r3) := by
  constructor
  · intro now P M R msgs ttl c
    rw [cache_set_entries]
    exact length_evict_if_needed_le _ _
  · intro p0 p1 p2 p3 M r0 r1 r2 r3 msgs h01 h02 h03 h12 h13 h23
    set k0 := cacheKey sha256hex md5hex p0 M msgs with hk0
    set k1 := cacheKey sha256hex md5hex p1 M msgs with hk1
    set k2 := cacheKey sha256hex md5hex p2 M msgs with hk2
    set k3 := cacheKey sha256hex md5hex p3 M msgs with hk3
    have hs1 : (cache_set sha256hex md5hex 0 p0 M r0 msgs 3600 ⟨3, []⟩).entries =
        [(k0, ⟨r0, 0, 0, 3600⟩)] := by
      rw [cache_set_entries, ← hk0]
      norm_num [dictSet, evict_if_needed]
    have hmax : ∀ (now : ℚ) (P R : String) (ttl : ℤ) (c : ResponseCache),
        (cache_set sha256hex md5hex now P M R msgs ttl c).max_entries = c.max_entries :=
      fun _ _ _ _ _ => rfl
    have hs2 : (cache_set sha256hex md5hex 1 p1 M r1 msgs 3600
        (cache_set sha256hex md5hex 0 p0 M r0 msgs 3600 ⟨3, []⟩)).entries =
        [(k0, ⟨r0, 0, 0, 3600⟩), (k1, ⟨r1, 1, 0, 3600⟩)] := by
      rw [cache_set_entries, ← hk1, hs1, hmax]
      norm_num [dictSet, evict_if_needed, h01]
    have hs3 : (cache_set sha256hex md5hex 2 p2 M r2 msgs 3600
        (cache_set sha256hex md5hex 1 p1 M r1 msgs 3600
          (cache_set sha256hex md5hex 0 p0 M r0 msgs 3600 ⟨3, []⟩))).entries =
        [(k0, ⟨r0, 0, 0, 3600⟩), (k1, ⟨r1, 1, 0, 3600⟩), (k2, ⟨r2, 2, 0, 3600⟩)] := by
      rw [cache_set_entries, ← hk2, hs2, hmax, hmax]
      norm_num [dictSet, evict_if_needed, h02, h12]
    have hsort : sortByTs [(k0, ⟨r0, 0, 0, 3600⟩), (k1, ⟨r1, 1, 0, 3600⟩),
        (k2, ⟨r2, 2, 0, 3600⟩), (k3, ⟨r3, 3, 0, 3600⟩)] =
        [(k0, ⟨r0, 0, 0, 3600⟩), (k1, ⟨r1, 1, 0, 3600⟩),
          (k2, ⟨r2, 2, 0, 3600⟩), (k3, ⟨r3, 3, 0, 3600⟩)] := by
      norm_num [sortByTs, insertByTs]
    have hs4 : (cache_set sha256hex md5hex 3 p3 M r3 msgs 3600
        (cache_set sha256hex md5hex 2 p2 M r2 msgs 3600
          (cache_set sha256hex md5hex 1 p1 M r1 msgs 3600
            (cache_set sha256hex md5hex 0 p0 M r0 msgs 3600 ⟨3, []⟩)))).entries =
        [(k1, ⟨r1, 1, 0, 3600⟩), (k2, ⟨r2, 2, 0, 3600⟩), (k3, ⟨r3, 3, 0, 3600⟩)] := by
      rw [cache_set_entries, ← hk3, hs3, hmax, hmax, hmax]
      have hd : dictSet k3 ⟨r3, 3, 0, 3600⟩
          [(k0, ⟨r0, 0, 0, 3600⟩), (k1, ⟨r1, 1, 0, 3600⟩), (k2, ⟨r2, 2, 0, 3600⟩)] =
          [(k0, ⟨r0, 0, 0, 3600⟩), (k1, ⟨r1, 1, 0, 3600⟩),
            (k2, ⟨r2, 2, 0, 3600⟩), (k3, ⟨r3, 3, 0, 3600⟩)] := by
        simp [dictSet, h03, h13, h23]
      rw [hd]
      rw [evict_if_needed]
      rw [if_neg (by norm_num)]
      rw [hsort]
      simp [h01.symm, h02.symm, h03.symm]
    refine ⟨?_, ?_, ?_, ?_⟩
    · apply cache_get_fst_miss
      rw [← hk0, hs4]
      simp [dictGet, h01.symm, h02.symm, h03.symm]
    · apply cache_get_fst_hit (e := ⟨r1, 1, 0, 3600⟩)
      · rw [← hk1, hs4]
        simp [dictGet]
      · norm_num
    · apply cache_get_fst_hit (e := ⟨r2, 2, 0, 3600⟩)
      · rw [← hk2, hs4]
        simp [dictGet, h12]
      · norm_num
    · apply cache_get_fst_hit (e := ⟨r3, 3, 0, 3600⟩)
      · rw [← hk3, hs4]
        simp [dictGet, h13, h23]
      · norm_num

/-- C2 witness: concrete digests and prompts realizing the eviction scenario
with `max_entries = 3` and prompts `prompt_0 .. prompt_3`. -/
theorem C2_size_invariant_and_eviction_witness :
    (cache_get (fun s => s) (fun _ => "cccccccc") 4 "prompt_0" "m" []
      (cache_set (fun s => s) (fun _ => "cccccccc") 3 "prompt_3" "m" "r3" [] 3600
        (cache_set (fun s => s) (fun _ => "cccccccc") 2 "prompt_2" "m" "r2" [] 3600
          (cache_set (fun s => s) (fun _ => "cccccccc") 1 "prompt_1" "m" "r1" [] 3600
            (cache_set (fun s => s) (fun _ => "cccccccc") 0 "prompt_0" "m" "r0" [] 3600
              ⟨3, []⟩))))).1 = none ∧
    (cache_get (fun s => s) (fun _ => "cccccccc") 4 "prompt_1" "m" []
      (cache_set (fun s => s) (fun _ => "cccccccc") 3 "prompt_3" "m" "r3" [] 3600
        (cache_set (fun s => s) (fun _ => "cccccccc") 2 "prompt_2" "m" "r2" [] 3600
          (cache_set (fun s => s) (fun _ => "cccccccc") 1 "prompt_1" "m" "r1" [] 3600
            (cache_set (fun s => s) (fun _ => "cccccccc") 0 "prompt_0" "m" "r0" [] 3600
              ⟨3, []⟩))))).1 = some "r1" ∧
    (cache_get (fun s => s) (fun _ => "cccccccc") 4 "prompt_2" "m" []
      (cache_set (fun s => s) (fun _ => "cccccccc") 3 "prompt_3" "m" "r3" [] 3600
        (cache_set (fun s => s) (fun _ => "cccccccc") 2 "prompt_2" "m" "r2" [] 3600
          (cache_set (fun s => s) (fun _ => "cccccccc") 1 "prompt_1" "m" "r1" [] 3600
            (cache_set (fun s => s) (fun _ => "cccccccc") 0 "prompt_0" "m" "r0" [] 3600
              ⟨3, []⟩))))).1 = some "r2" ∧
    (cache_get (fun s => s) (fun _ => "cccccccc") 4 "prompt_3" "m" []
      (cache_set (fun s => s) (fun _ => "cccccccc") 3 "prompt_3" "m" "r3" [] 3600
        (cache_set (fun s => s) (fun _ => "cccccccc") 2 "prompt_2" "m" "r2" [] 3600
          (cache_set (fun s => s) (fun _ => "cccccccc") 1 "prompt_1" "m" "r1" [] 3600
            (cache_set (fun s => s) (fun _ => "cccccccc") 0 "prompt_0" "m" "r0" [] 3600
              ⟨3, []⟩))))).1 = some "r3" :=
  (C2_size_invariant_and_eviction (fun s => s) (fun _ => "cccccccc")).2
    "prompt_0" "prompt_1" "prompt_2" "prompt_3" "m" "r0" "r1" "r2" "r3" []
    (by decide) (by decide) (by decide) (by decide) (by decide) (by decide)

/-- C9: `check_permission(READ_FILE, autoApprove=false)` always returns `true`
and leaves `session_approvals` unchanged, in every state and for every
escalation interaction; `check_permission(WRITE_FILE, autoApprove=false)` has
`WRITE_FILE` in the resulting approval set exactly when it was already there
or the escalation outcome is approve-for-session — approve-once and deny
leave the set unchanged. -/
theorem C9_permission_frame :
    (∀ (pm : PermissionManager) (d : String) (inp : Except Unit String),
      check_permission pm .READ_FILE d false inp = (true, pm)) ∧
    (∀ (pm : PermissionManager) (d : String) (inp : Except Unit String),
      ((escalationOutcome inp = .approveOnce ∨ escalationOutcome inp = .deny) →
        (check_permission pm .WRITE_FILE d false inp).2 = pm) ∧
      (OperationType.WRITE_FILE ∈
          (check_permission pm .WRITE_FILE d false inp).2.session_approvals ↔
        (OperationType.WRITE_FILE ∈ pm.session_approvals ∨
          escalationOutcome inp = .approveForSession))) := by
  constructor
  · intro pm d inp
    simp [check_permission, safe_operations]
  · intro pm d inp
    by_cases hw : OperationType.WRITE_FILE ∈ pm.session_approvals
    · constructor
      · intro _
        simp [check_permission, safe_operations, hw]
      · simp [check_permission, safe_operations, hw]
    · cases inp with
      | error u =>
        constructor
        · intro _
          simp [check_permission, safe_operations, hw, request_permission]
        · simp [check_permission, safe_operations, hw, request_permission,
            escalationOutcome]
      | ok raw =>
        by_cases h2 : pyStrip raw = "2"
        · constructor
          · intro hout
            rcases hout with hout | hout <;>
              simp [escalationOutcome, h2] at hout
          · simp [check_permission, safe_operations, hw, request_permission,
              escalationOutcome, h2]
        · by_cases h3 : pyStrip raw = "3" ∨ pyLower (pyStrip raw) = "no"
          · constructor
            · intro _
              simp [check_permission, safe_operations, hw, request_permission, h2, h3]
            · simp [check_permission, safe_operations, hw, request_permission,
                escalationOutcome, h2, h3]
          · constructor
            · intro _
              simp [check_permission, safe_operations, hw, request_permission, h2, h3]
            · simp [check_permission, safe_operations, hw, request_permission,
                escalationOutcome, h2, h3]

/-- C9 witness: the empty session with concrete console interactions — "1"
(approve once) for the READ_FILE query, "3" (deny) and "2" (approve for
session) for WRITE_FILE. -/
theorem C9_permission_frame_witness :
    check_permission ⟨∅⟩ .READ_FILE "" false (.ok "1") = (true, ⟨∅⟩) ∧
    (check_permission ⟨∅⟩ .WRITE_FILE "" false (.ok "3")).2 = ⟨∅⟩ ∧
    (OperationType.WRITE_FILE ∈
        (check_permission ⟨∅⟩ .WRITE_FILE "" false (.ok "2")).2.session_approvals ↔
      (OperationType.WRITE_FILE ∈ (⟨∅⟩ : PermissionManager).session_approvals ∨
        escalationOutcome (.ok "2") = .approveForSession)) :=
  ⟨C9_permission_frame.1 ⟨∅⟩ "" (.ok "1"),
   (C9_permission_frame.2 ⟨∅⟩ "" (.ok "3")).1 (Or.inr (by decide)),
   (C9_permission_frame.2 ⟨∅⟩ "" (.ok "2")).2⟩

theorem intercalate_go_append (sep acc x : String) (as : List String) :
    String.intercalate.go acc sep (as ++ [x]) = String.intercalate.go acc sep as ++ sep ++ x := by
  induction as generalizing acc with
  | nil => rfl
  | cons a t ih =>
    simpa [String.intercalate.go] using ih (acc ++ sep ++ a)

theorem intercalate_append_singleton (sep x : String) (l : List String) (h : l ≠ []) :
    String.intercalate sep (l ++ [x]) = String.intercalate sep l ++ sep ++ x := by
  cases l with
  | nil => exact absurd rfl h
  | cons a as => simpa [String.intercalate] using intercalate_go_append sep a x as

/-- C8 counterexample: one successful tool block "A" with a wanted model reply
"B" yields `"A\n\n\nB"` — two blank lines before the reply, not the single
blank line the claim states. -/
theorem C8_combined_response_counterexample :
    format_combined_response [{ success := true, formatted_output := some "A" }]
      ⟨[], "x", true⟩ (some "B") = "A\n\n\nB" ∧
    "A\n\n\nB" ≠ "A\n\nB" := by
  constructor
  · rfl
  · decide

/-- C8 (amended): `format_combined_response` concatenates the formatted
outputs of the successful results, then of the failed results (skipping empty
or missing ones), with exactly one blank line between tool blocks; when
`plan.needs_ai_response` holds and the reply is non-empty, the reply is
appended after the blocks separated by two blank lines (its block carries a
leading extra newline), or alone when there are no blocks; the sentinel
"No output generated." is returned when nothing was produced. -/
theorem C8_combined_response_amended (results : List ToolResult) (plan : ExecutionPlan)
    (ai_response : Option String) :
    format_combined_response results plan ai_response =
      format_combined_response_spec results plan ai_response := by
  unfold format_combined_response format_combined_response_spec
  dsimp only
  rw [List.filter_filter]
  have hfilter : results.filter (fun a => strTruthy a.formatted_output && !a.success) =
      results.filter (fun r => !r.success && strTruthy r.formatted_output) := by
    simp [Bool.and_comm]
  rw [hfilter]
  set blocks := (results.filter (fun r => r.success && strTruthy r.formatted_output)).map
      (fun r => r.formatted_output.getD "") ++
    (results.filter (fun r => !r.success && strTruthy r.formatted_output)).map
      (fun r => r.formatted_output.getD "") with hblocks
  by_cases hw : (strTruthy ai_response && plan.needs_ai_response) = true
  · rw [if_pos hw, if_pos hw]
    by_cases hb : blocks = []
    · simp [hb, String.intercalate, String.intercalate.go]
    · have hbe : blocks.isEmpty = false := by
        simp [List.isEmpty_iff, hb]
      rw [hbe]
      simp only [Bool.false_eq_true, if_false]
      have hne : (blocks ++ ["\n" ++ ai_response.getD ""]).isEmpty = false := by
        simp
      rw [hne]
      simp only [Bool.false_eq_true, if_false]
      rw [intercalate_append_singleton _ _ _ hb]
      rw [String.append_assoc]
      rw [← String.append_assoc "\n\n" "\n" (ai_response.getD "")]
      rw [show ("\n\n" ++ "\n" : String) = "\n\n\n" from rfl]
      rw [← String.append_assoc]
  · rw [if_neg hw, if_neg hw]

theorem intercalate_go_prefix (sep acc : String) (rest : List String) :
    ∃ t : String, String.intercalate.go acc sep rest = acc ++ t := by
  induction rest generalizing acc with
  | nil => exact ⟨"", (String.append_empty acc).symm⟩
  | cons a t ih =>
    obtain ⟨u, hu⟩ := ih (acc ++ sep ++ a)
    refine ⟨sep ++ a ++ u, ?_⟩
    rw [String.intercalate.go, hu]
    rw [String.append_assoc, String.append_assoc, ← String.append_assoc sep a u]

theorem intercalate_cons_prefix (sep a : String) (rest : List String) :
    ∃ t : String, String.intercalate sep (a :: rest) = a ++ t := by
  simpa [String.intercalate] using intercalate_go_prefix sep a rest

theorem listPrefixOf_append (l r : List Char) : listPrefixOf l (l ++ r) = true :=
  (listPrefixOf_iff l (l ++ r)).mpr ⟨r, rfl⟩

/-- C5 counterexample: analyzing "find all TODO comments" yields no intent
whose target is "TODO" (the extracted target is the whole trailing phrase),
and the formatted search output does not begin with "Found" (it begins with a
magnifier emoji). -/
theorem C5_search_todo_counterexample :
    ((analyze_intent "find all TODO comments").all (fun i => !(i.target == "TODO")) = true) ∧
    (listPrefixOf "Found".data
      (format_search_results "all TODO comments" [⟨"a.py", 1, "x"⟩] 10).data = false) := by
  constructor
  · decide
  · decide

/-- C5 (amended): analyzing "find all TODO comments" yields exactly one
intent — a `SearchOp`/`grep` intent with target "all TODO comments" (the
first word phrase after the matched search keyword) and confidence 0.8 — and
formatting a non-empty match list for that target produces output beginning
with "🔍 Found <N> matches for 'all TODO comments':". -/
theorem C5_search_todo_amended :
    analyze_intent "find all TODO comments" =
      [{ type := .SEARCH_OP, action := "grep", target := "all TODO comments",
         confidence := mkRat 4 5 }] ∧
    (∀ results : List SearchResult, results ≠ [] →
      listPrefixOf ("🔍 Found " ++ toString results.length ++ " matches for " ++ sglq ++
          "all TODO comments" ++ sglq ++ ":").data
        (format_search_results "all TODO comments" results 10).data = true) := by
  constructor
  · decide
  · intro results h
    unfold format_search_results
    rw [if_neg (by simp [List.isEmpty_iff, h])]
    dsimp only
    by_cases hlen : results.length > 10
    · rw [if_pos hlen]
      rw [List.cons_append]
      obtain ⟨t, ht⟩ := intercalate_cons_prefix "\n"
        ("🔍 Found " ++ toString results.length ++ " matches for " ++ sglq ++
          "all TODO comments" ++ sglq ++ ":")
        (((results.take 10).map (fun r =>
          "  " ++ r.file ++ ":" ++ toString r.line ++ " - " ++
            String.mk ((pyStrip r.content).data.take 80))) ++
          ["  ... and " ++ toString (results.length - 10) ++ " more matches"])
      rw [ht, String.data_append]
      exact listPrefixOf_append _ _
    · rw [if_neg hlen]
      obtain ⟨t, ht⟩ := intercalate_cons_prefix "\n"
        ("🔍 Found " ++ toString results.length ++ " matches for " ++ sglq ++
          "all TODO comments" ++ sglq ++ ":")
        ((results.take 10).map (fun r =>
          "  " ++ r.file ++ ":" ++ toString r.line ++ " - " ++
            String.mk ((pyStrip r.content).data.take 80)))
      rw [ht, String.data_append]
      exact listPrefixOf_append _ _

/-- C5 witness: the amended statement applied to a one-element match list. -/
theorem C5_search_todo_amended_witness :
    analyze_intent "find all TODO comments" =
      [{ type := .SEARCH_OP, action := "grep", target := "all TODO comments",
         confidence := mkRat 4 5 }] ∧
    listPrefixOf ("🔍 Found " ++ toString ([⟨"a.py", 1, "x"⟩] : List SearchResult).length ++
        " matches for " ++ sglq ++ "all TODO comments" ++ sglq ++ ":").data
      (format_search_results "all TODO comments" [⟨"a.py", 1, "x"⟩] 10).data = true :=
  ⟨C5_search_todo_amended.1,
   C5_search_todo_amended.2 [⟨"a.py", 1, "x"⟩] (by decide)⟩

/-- C6 counterexample: for the input "git status" with a collaborator whose
`get_status` raises "boom", `process_request` yields a failed result whose
formatted output is the git handler's own inner-catch text, not the
`ErrorRecovery.handle_tool_error` recovery text. -/
theorem C6_exception_containment_counterexample :
    ((process_request
        { read_file := fun _ => .ok none, is_git_repo := .ok true,
          get_status := .error "boom", get_diff := .ok none,
          get_log := fun _ => .ok none, grep_files := fun _ _ => .ok [],
          run_command := fun _ => .ok { success := true },
          render_file := fun f _ => f }
        "git status").1.map (fun r => (r.success, r.formatted_output, r.error))) =
      [(false, some "❌ Git operation failed: boom", some "boom")] ∧
    some "❌ Git operation failed: boom" ≠
      some (handle_tool_error "boom" "git_operation" "git status") := by
  constructor
  · rfl
  · decide

/-- C6 (amended): no exception propagates out of `_execute_intent`; an
exception that escapes a handler (e.g. `read_file` raising inside the file
handler, which has no inner try) produces a failed result whose formatted
output is the `ErrorRecovery.handle_tool_error` recovery text, while an
exception caught by a handler's own inner try/except (e.g. `get_status`
raising inside the git handler) produces a failed result with that handler's
own error text instead. -/
theorem C6_exception_containment_amended :
    (∀ (c : Collabs) (intent : ToolIntent) (input e : String),
      runHandler c intent input = .error e →
      execute_intent c intent input =
        { success := false, error := some e,
          formatted_output := some (handle_tool_error e intent.type.value input),
          tool_type := some intent.type, action := some intent.action }) ∧
    (∀ (c : Collabs) (input target e : String) (conf : ℚ) (ctx : List (String × String)),
      target ≠ "" → c.read_file target = .error e →
      execute_intent c ⟨.FILE_OP, "read", target, conf, ctx⟩ input =
        { success := false, error := some e,
          formatted_output := some (handle_tool_error e "file_operation" input),
          tool_type := some ToolType.FILE_OP, action := some "read" }) ∧
    (∀ (c : Collabs) (input target e : String) (conf : ℚ) (ctx : List (String × String)),
      c.is_git_repo = .ok true → c.get_status = .error e →
      execute_intent c ⟨.GIT_OP, "status", target, conf, ctx⟩ input =
        { success := false, error := some e,
          formatted_output := some ("❌ Git operation failed: " ++ e),
          tool_type := some ToolType.GIT_OP, action := some "status" }) := by
  refine ⟨?_, ?_, ?_⟩
  · intro c intent input e h
    simp [execute_intent, h]
  · intro c input target e conf ctx htarget hread
    simp [execute_intent, runHandler, execute_file_operation, htarget, hread,
      Bind.bind, Except.bind, ToolType.value]
  · intro c input target e conf ctx hrepo hstat
    simp [execute_intent, runHandler, execute_git_operation, gitTryBody, hrepo, hstat,
      Bind.bind, Except.bind, Pure.pure, Except.pure]

/-- C6 witness: the amended statement at a concrete collaborator — a raising
`read_file` yields the recovery text, and a raising `get_status` yields the
git handler text. -/
theorem C6_exception_containment_amended_witness :
    execute_intent
      { read_file := fun _ => .error "nope", is_git_repo := .ok true,
        get_status := .error "boom", get_diff := .ok none,
        get_log := fun _ => .ok none, grep_files := fun _ _ => .ok [],
        run_command := fun _ => .ok { success := true }, render_file := fun f _ => f }
      ⟨.FILE_OP, "read", "f.py", mkRat 9 10, []⟩ "read f.py" =
      { success := false, error := some "nope",
        formatted_output := some (handle_tool_error "nope" "file_operation" "read f.py"),
        tool_type := some ToolType.FILE_OP, action := some "read" } ∧
    execute_intent
      { read_file := fun _ => .error "nope", is_git_repo := .ok true,
        get_status := .error "boom", get_diff := .ok none,
        get_log := fun _ => .ok none, grep_files := fun _ _ => .ok [],
        run_command := fun _ => .ok { success := true }, render_file := fun f _ => f }
      ⟨.GIT_OP, "status", "", mkRat 9 10, []⟩ "git status" =
      { success := false, error := some "boom",
        formatted_output := some ("❌ Git operation failed: " ++ "boom"),
        tool_type := some ToolType.GIT_OP, action := some "status" } :=
  ⟨C6_exception_containment_amended.2.1 _ "read f.py" "f.py" "nope" (mkRat 9 10) []
      (by decide) rfl,
   C6_exception_containment_amended.2.2 _ "git status" "" "boom" (mkRat 9 10) []
      rfl rfl⟩

/-- C7 counterexample: a bash `run` intent with an empty target and the user
input "run ls" does not produce the "please specify" failure — the handler
re-extracts "ls" from the input and invokes `run_command`, mapping its
successful result. -/
theorem C7_bash_run_counterexample :
    execute_intent
      { read_file := fun _ => .ok none, is_git_repo := .ok false,
        get_status := .ok none, get_diff := .ok none, get_log := fun _ => .ok none,
        grep_files := fun _ _ => .ok [],
        run_command := fun cmd =>
          if cmd = "ls" then
            .ok ({ success := true, returncode := some 0, stdout := some "ok",
                   stderr := some "", command := some "ls" } : CmdResult)
          else .error "unexpected command",
        render_file := fun f _ => f }
      ⟨.BASH_OP, "run", "", mkRat 7 10, []⟩ "run ls" =
      { success := true,
        data := some (.cmdResult ({ success := true, returncode := some 0, stdout := some "ok", stderr := some "", command := some "ls" } : CmdResult)),
        formatted_output := some "$ ls\nok",
        tool_type := some ToolType.BASH_OP, action := some "run" } := by
  rfl

/-- C7 (amended): with a non-empty target the bash `run` handler calls
`run_command(target)` once and maps its fields — exception to inner-catch
text, success to a command-result block, failure to
`error`/`stderr`/"Unknown error" text; with an empty target it first
re-extracts a command from the user input (the two handler regexes, then the
pwd special case) and only rejects with the "please specify" failure when all
of that fails. -/
theorem C7_bash_run_amended :
    (∀ (c : Collabs) (input target e : String) (conf : ℚ) (ctx : List (String × String)),
      target ≠ "" → c.run_command target = .error e →
      execute_intent c ⟨.BASH_OP, "run", target, conf, ctx⟩ input =
        { success := false, error := some e,
          formatted_output := some ("❌ Command execution failed: " ++ e),
          tool_type := some ToolType.BASH_OP, action := some "run" }) ∧
    (∀ (c : Collabs) (input target : String) (conf : ℚ) (ctx : List (String × String))
        (r : CmdResult),
      target ≠ "" → c.run_command target = .ok r → r.success = true →
      execute_intent c ⟨.BASH_OP, "run", target, conf, ctx⟩ input =
        { success := true, data := some (.cmdResult r),
          formatted_output :=
            some (format_command_result target (r.stdout.getD "") r.stderr),
          tool_type := some ToolType.BASH_OP, action := some "run" }) ∧
    (∀ (c : Collabs) (input target : String) (conf : ℚ) (ctx : List (String × String))
        (r : CmdResult),
      target ≠ "" → c.run_command target = .ok r → r.success = false →
      execute_intent c ⟨.BASH_OP, "run", target, conf, ctx⟩ input =
        { success := false,
          error := some (r.error.getD (r.stderr.getD "Unknown error")),
          formatted_output := some (format_command_result target ""
            (some (r.error.getD (r.stderr.getD "Unknown error")))),
          tool_type := some ToolType.BASH_OP, action := some "run" }) ∧
    (∀ (c : Collabs) (input : String) (conf : ℚ) (ctx : List (String × String)),
      bash_extract_command input = none →
      pyIn "pwd" (pyLower input) = false → pyIn "directory" (pyLower input) = false →
      pyIn "current" (pyLower input) = false →
      execute_intent c ⟨.BASH_OP, "run", "", conf, ctx⟩ input =
        { success := false, error := some "No command specified",
          formatted_output := some ("Please specify which command you" ++ sglq ++
            "d like me to run.") }) ∧
    (∀ (c : Collabs) (input t : String) (conf : ℚ) (ctx : List (String × String)),
      bash_extract_command input = some t → t ≠ "" →
      execute_intent c ⟨.BASH_OP, "run", "", conf, ctx⟩ input =
        execute_intent c ⟨.BASH_OP, "run", t, conf, ctx⟩ input) := by
  refine ⟨?_, ?_, ?_, ?_, ?_⟩
  · intro c input target e conf ctx htarget hrun
    simp [execute_intent, runHandler, execute_bash_operation, htarget, runBash,
      bashTryBody, hrun, Bind.bind, Except.bind, Pure.pure, Except.pure]
  · intro c input target conf ctx r htarget hrun hsucc
    simp [execute_intent, runHandler, execute_bash_operation, htarget, runBash,
      bashTryBody, hrun, hsucc, Bind.bind, Except.bind, Pure.pure, Except.pure]
  · intro c input target conf ctx r htarget hrun hsucc
    cases hr : r.error with
    | some e =>
      simp [execute_intent, runHandler, execute_bash_operation, htarget, runBash,
        bashTryBody, hrun, hsucc, hr, Bind.bind, Except.bind, Pure.pure, Except.pure]
    | none =>
      simp [execute_intent, runHandler, execute_bash_operation, htarget, runBash,
        bashTryBody, hrun, hsucc, hr, Bind.bind, Except.bind, Pure.pure, Except.pure]
  · intro c input conf ctx hext hpwd hdir hcur
    simp [execute_intent, runHandler, execute_bash_operation, hext, hpwd, hdir, hcur,
      Bind.bind, Except.bind, Pure.pure, Except.pure]
  · intro c input t conf ctx hext ht
    simp [execute_intent, runHandler, execute_bash_operation, hext, ht,
      Bind.bind, Except.bind, Pure.pure, Except.pure, runBash, bashTryBody]

/-- C7 witness: the amended statement at concrete inputs — a successful "ls"
run with a non-empty target, and the reject branch for the input "hello". -/
theorem C7_bash_run_amended_witness :
    execute_intent
      { read_file := fun _ => .ok none, is_git_repo := .ok false,
        get_status := .ok none, get_diff := .ok none, get_log := fun _ => .ok none,
        grep_files := fun _ _ => .ok [],
        run_command := fun _ =>
          .ok ({ success := true, returncode := some 0, stdout := some "ok",
                 stderr := some "", command := some "ls" } : CmdResult),
        render_file := fun f _ => f }
      ⟨.BASH_OP, "run", "ls", mkRat 4 5, []⟩ "run ls" =
      { success := true,
        data := some (.cmdResult ({ success := true, returncode := some 0, stdout := some "ok", stderr := some "", command := some "ls" } : CmdResult)),
        formatted_output := some (format_command_result "ls"
          ((some "ok" : Option String).getD "") (some "")),
        tool_type := some ToolType.BASH_OP, action := some "run" } ∧
    execute_intent
      { read_file := fun _ => .ok none, is_git_repo := .ok false,
        get_status := .ok none, get_diff := .ok none, get_log := fun _ => .ok none,
        grep_files := fun _ _ => .ok [],
        run_command := fun _ =>
          .ok ({ success := true, returncode := some 0, stdout := some "ok",
                 stderr := some "", command := some "ls" } : CmdResult),
        render_file := fun f _ => f }
      ⟨.BASH_OP, "run", "", mkRat 7 10, []⟩ "hello" =
      { success := false, error := some "No command specified",
        formatted_output := some ("Please specify which command you" ++ sglq ++
          "d like me to run.") } :=
  ⟨C7_bash_run_amended.2.1 _ "run ls" "ls" (mkRat 4 5) []
      { success := true, returncode := some 0, stdout := some "ok",
        stderr := some "", command := some "ls" } (by decide) rfl rfl,
   C7_bash_run_amended.2.2.2.1 _ "hello" (mkRat 7 10) [] (by decide) (by decide)
      (by decide) (by decide)⟩

theorem intercalate_single (sep x : List Char) : List.intercalate sep [x] = x := by
  simp [List.intercalate]

theorem intercalate_cons_two (sep x y : List Char) (t : List (List Char)) :
    List.intercalate sep (x :: y :: t) = x ++ sep ++ List.intercalate sep (y :: t) := by
  simp [List.intercalate, List.intersperse_cons₂, List.append_assoc]

theorem pyWordsGo_ws_drop (cs : List Char) :
    pyWordsGo (cs.dropWhile isPyWs) [] = pyWordsGo cs [] := by
  induction cs with
  | nil => rfl
  | cons c cs' ih =>
    by_cases h : isPyWs c
    · rw [List.dropWhile_cons_of_pos h, ih]
      simp [pyWordsGo, h]
    · rw [List.dropWhile_cons_of_neg h]

theorem pyWordsGo_word_block (w : List Char) (hw : ∀ c ∈ w, isPyWs c = false) :
    ∀ (s acc : List Char), pyWordsGo (w ++ s) acc = pyWordsGo s (w.reverse ++ acc) := by
  induction w with
  | nil => intro s acc; simp
  | cons c w' ih =>
    intro s acc
    have hc : isPyWs c = false := hw c (by simp)
    have hw' : ∀ d ∈ w', isPyWs d = false := fun d hd => hw d (by simp [hd])
    rw [List.cons_append]
    show pyWordsGo (c :: (w' ++ s)) acc = _
    rw [pyWordsGo, hc]
    simp only [Bool.false_eq_true, if_false]
    rw [ih hw' s (c :: acc)]
    simp [List.append_assoc]

theorem squeezeWs_word_block (w : List Char) (hw : ∀ c ∈ w, isPyWs c = false) :
    ∀ s, squeezeWs (w ++ s) = w ++ squeezeWs s := by
  induction w with
  | nil => intro s; simp
  | cons c w' ih =>
    intro s
    have hc : isPyWs c = false := hw c (by simp)
    have hw' : ∀ d ∈ w', isPyWs d = false := fun d hd => hw d (by simp [hd])
    rw [List.cons_append, squeezeWs, hc]
    simp only [Bool.false_eq_true, if_false]
    rw [ih hw' s]
    rfl

theorem pyWordsGo_all_ws (t : List Char) (h : ∀ c ∈ t, isPyWs c = true) :
    pyWordsGo t [] = [] := by
  induction t with
  | nil => rfl
  | cons c t' ih =>
    have hc : isPyWs c = true := h c (by simp)
    have h' : ∀ d ∈ t', isPyWs d = true := fun d hd => h d (by simp [hd])
    rw [pyWordsGo, hc]
    simp [ih h']

theorem pyWordsGo_append_ws (t : List Char) (ht : ∀ c ∈ t, isPyWs c = true) :
    ∀ (l acc : List Char), pyWordsGo (l ++ t) acc = pyWordsGo l acc := by
  intro l
  induction l with
  | nil =>
    intro acc
    cases t with
    | nil => rfl
    | cons c t' =>
      have hc : isPyWs c = true := ht c (by simp)
      have h' : ∀ d ∈ t', isPyWs d = true := fun d hd => ht d (by simp [hd])
      have hstep : pyWordsGo (c :: t') acc =
          if acc.isEmpty then pyWordsGo t' [] else acc.reverse :: pyWordsGo t' [] := by
        rw [pyWordsGo, hc]
        simp
      rw [List.nil_append, hstep, pyWordsGo_all_ws t' h']
      simp [pyWordsGo]
  | cons c l' ih =>
    intro acc
    rw [List.cons_append, pyWordsGo, pyWordsGo]
    by_cases hc : isPyWs c
    · simp [hc, ih]
    · simp [hc, ih (c :: acc)]

theorem pyWordsGo_ne_nil : ∀ (l acc : List Char), acc ≠ [] → pyWordsGo l acc ≠ [] := by
  intro l
  induction l with
  | nil =>
    intro acc h
    rw [pyWordsGo]
    simp [List.isEmpty_iff, h]
  | cons c l' ih =>
    intro acc h
    rw [pyWordsGo]
    by_cases hc : isPyWs c
    · simp [hc, List.isEmpty_iff, h]
    · simp only [hc]
      simp only [Bool.false_eq_true, if_false]
      exact ih (c :: acc) (by simp)

theorem dropTrailingWs_ne_nil (X : List Char) (c : Char) (hmem : c ∈ X)
    (hc : isPyWs c = false) : dropTrailingWs X ≠ [] := by
  intro h
  unfold dropTrailingWs at h
  rw [List.reverse_eq_nil_iff] at h
  rw [List.dropWhile_eq_nil_iff] at h
  exact absurd (h c (by simp [hmem])) (by simp [hc])

theorem dropTrailingWs_append (a b : List Char) (h : dropTrailingWs b ≠ []) :
    dropTrailingWs (a ++ b) = a ++ dropTrailingWs b := by
  unfold dropTrailingWs at h ⊢
  rw [List.reverse_append, List.dropWhile_append]
  have hb : b.reverse.dropWhile isPyWs ≠ [] := by
    intro hx
    exact h (by rw [hx]; rfl)
  have hne : (b.reverse.dropWhile isPyWs).isEmpty = false := by
    simp [List.isEmpty_iff, hb]
  rw [hne]
  simp

theorem pyWords_trim (l : List Char) : pyWords (trimWsL l) = pyWords l := by
  unfold pyWords trimWsL
  set m := l.dropWhile isPyWs with hm
  have hsplit : m = (m.reverse.dropWhile isPyWs).reverse ++ (m.reverse.takeWhile isPyWs).reverse := by
    conv_lhs => rw [← List.reverse_reverse m]
    rw [← List.reverse_append]
    rw [List.takeWhile_append_dropWhile]
  have hws : ∀ c ∈ (m.reverse.takeWhile isPyWs).reverse, isPyWs c = true := by
    intro c hcm
    rw [List.mem_reverse] at hcm
    exact List.mem_takeWhile_imp hcm
  calc pyWordsGo (m.reverse.dropWhile isPyWs).reverse []
      = pyWordsGo ((m.reverse.dropWhile isPyWs).reverse ++
          (m.reverse.takeWhile isPyWs).reverse) [] := by
        rw [pyWordsGo_append_ws _ hws]
    _ = pyWordsGo m [] := by rw [← hsplit]
    _ = pyWordsGo l [] := pyWordsGo_ws_drop l

theorem dropTrailingWs_wsfree (w : List Char) (hw : ∀ d ∈ w, isPyWs d = false) :
    dropTrailingWs w = w := by
  unfold dropTrailingWs
  cases hrev : w.reverse with
  | nil => simp [List.reverse_eq_nil_iff.mp hrev]
  | cons d dr =>
    have hd : d ∈ w := by
      rw [← List.mem_reverse, hrev]
      simp
    rw [List.dropWhile_cons_of_neg (by simp [hw d hd])]
    rw [← hrev, List.reverse_reverse]

theorem normalize_main : ∀ (n : ℕ) (l : List Char), l.length ≤ n →
    List.intercalate [' '] (pyWordsGo l []) = trimWsL (squeezeWs l) := by
  intro n
  induction n with
  | zero =>
    intro l hl
    have hnil : l = [] := List.length_eq_zero.mp (Nat.le_zero.mp hl)
    subst hnil
    simp [squeezeWs, trimWsL, List.intercalate, pyWordsGo]
  | succ n ih =>
    intro l hl
    cases l with
    | nil => simp [squeezeWs, trimWsL, List.intercalate, pyWordsGo]
    | cons c cs =>
      by_cases hc : isPyWs c
      · have h1 : pyWordsGo (c :: cs) [] = pyWordsGo (cs.dropWhile isPyWs) [] := by
          rw [pyWordsGo, hc]
          simp [pyWordsGo_ws_drop]
        have h2 : squeezeWs (c :: cs) = ' ' :: squeezeWs (cs.dropWhile isPyWs) := by
          rw [squeezeWs, hc]
          simp
        have h3 : trimWsL (' ' :: squeezeWs (cs.dropWhile isPyWs)) =
            trimWsL (squeezeWs (cs.dropWhile isPyWs)) := by
          unfold trimWsL
          rw [List.dropWhile_cons_of_pos (by decide : isPyWs ' ' = true)]
        rw [h1, h2, h3]
        apply ih
        calc (cs.dropWhile isPyWs).length ≤ cs.length := (List.dropWhile_sublist _).length_le
          _ ≤ n := by simpa using Nat.succ_le_succ_iff.mp hl
      · have hcb : isPyWs c = false := by simpa using hc
        set tw := cs.takeWhile (fun d => !isPyWs d) with htw
        set rest := cs.dropWhile (fun d => !isPyWs d) with hrest
        have hcs : tw ++ rest = cs := by
          rw [htw, hrest]
          exact List.takeWhile_append_dropWhile _ _
        have htwf : ∀ d ∈ tw, isPyWs d = false := by
          intro d hd
          have := List.mem_takeWhile_imp hd
          simpa using this
        have hwf : ∀ d ∈ c :: tw, isPyWs d = false := by
          intro d hd
          rcases List.mem_cons.mp hd with h | h
          · rw [h]; exact hcb
          · exact htwf d h
        have hl' : (c :: cs) = (c :: tw) ++ rest := by
          rw [List.cons_append, hcs]
        rw [hl']
        rw [pyWordsGo_word_block (c :: tw) hwf rest []]
        rw [squeezeWs_word_block (c :: tw) hwf rest]
        have hfront : trimWsL ((c :: tw) ++ squeezeWs rest) =
            dropTrailingWs ((c :: tw) ++ squeezeWs rest) := by
          unfold trimWsL dropTrailingWs
          rw [List.cons_append, List.dropWhile_cons_of_neg hc]
        rw [hfront]
        have hrestlen : rest.length ≤ cs.length := (List.dropWhile_sublist _).length_le
        cases hrest2 : rest with
        | nil =>
          rw [show squeezeWs [] = [] from by simp [squeezeWs]]
          have hacc : (((c :: tw).reverse ++ []).isEmpty) = false := by
            simp
          rw [show pyWordsGo [] ((c :: tw).reverse ++ []) =
              [((c :: tw).reverse ++ []).reverse] from by
            rw [pyWordsGo, hacc]
            simp]
          simp only [List.append_nil, List.reverse_reverse]
          rw [intercalate_single]
          rw [dropTrailingWs_wsfree _ hwf]
        | cons d rest' =>
          have hd : isPyWs d = true := by
            have hh := List.head?_dropWhile_not (fun x => !isPyWs x) cs
            rw [← hrest, hrest2] at hh
            simpa using hh
          have hacc : (((c :: tw).reverse ++ []).isEmpty) = false := by
            simp
          rw [show pyWordsGo (d :: rest') ((c :: tw).reverse ++ []) =
              (((c :: tw).reverse ++ []).reverse) :: pyWordsGo rest' [] from by
            rw [pyWordsGo, hd, hacc]
            simp]
          simp only [List.append_nil, List.reverse_reverse]
          set r2 := rest'.dropWhile isPyWs with hr2
          have hgo : pyWordsGo rest' [] = pyWordsGo r2 [] := (pyWordsGo_ws_drop rest').symm
          have hsq : squeezeWs (d :: rest') = ' ' :: squeezeWs r2 := by
            rw [squeezeWs, hd]
            simp
          rw [hgo, hsq]
          have hlen2 : r2.length ≤ n := by
            have h1 : r2.length ≤ rest'.length := (List.dropWhile_sublist _).length_le
            have h2 : rest'.length + 1 = rest.length := by rw [hrest2]; rfl
            have h3 : cs.length + 1 ≤ n + 1 := by simpa using hl
            omega
          have hIH := ih r2 hlen2
          cases hr2c : r2 with
          | nil =>
            rw [show pyWordsGo [] ([] : List Char) = [] from rfl]
            rw [show squeezeWs [] = [] from by simp [squeezeWs]]
            rw [intercalate_single]
            have : (c :: tw) ++ [' '] = (c :: tw) ++ [' '] := rfl
            unfold dropTrailingWs
            rw [List.reverse_append]
            rw [show ([' '] : List Char).reverse = [' '] from rfl]
            rw [show ([' '] : List Char) ++ (c :: tw).reverse = ' ' :: (c :: tw).reverse from rfl]
            rw [List.dropWhile_cons_of_pos (by decide : isPyWs ' ' = true)]
            have := dropTrailingWs_wsfree (c :: tw) hwf
            unfold dropTrailingWs at this
            rw [this]
          | cons e r2' =>
            rw [← hr2c]
            have he : isPyWs e = false := by
              have hh := List.head?_dropWhile_not isPyWs rest'
              rw [← hr2, hr2c] at hh
              simpa using hh
            have hsq2 : squeezeWs r2 = e :: squeezeWs r2' := by
              rw [hr2c, squeezeWs, he]
              simp
            have hnonnil : dropTrailingWs (squeezeWs r2) ≠ [] := by
              apply dropTrailingWs_ne_nil _ e _ he
              rw [hsq2]
              simp
            have hne : pyWordsGo r2 [] ≠ [] := by
              rw [hr2c, pyWordsGo, he]
              simp only [Bool.false_eq_true, if_false]
              exact pyWordsGo_ne_nil r2' [e] (by simp)
            obtain ⟨y, t', hyt⟩ := List.exists_cons_of_ne_nil hne
            rw [hyt]
            rw [intercalate_cons_two]
            have hassoc : (c :: tw) ++ ' ' :: squeezeWs r2 =
                ((c :: tw) ++ [' ']) ++ squeezeWs r2 := by
              simp
            rw [hassoc]
            rw [dropTrailingWs_append _ _ hnonnil]
            have hfront2 : trimWsL (squeezeWs r2) = dropTrailingWs (squeezeWs r2) := by
              unfold trimWsL dropTrailingWs
              rw [hsq2, List.dropWhile_cons_of_neg (by simp [he])]
            rw [← hfront2, ← hIH, hyt]

theorem hexVal_hexDigit (m : ℕ) (h : m < 16) : hexVal (hexDigit m) = m := by
  interval_cases m <;> decide

theorem hex4_val (n : ℕ) (h : n < 65536) :
    hexVal (hexDigit (n / 4096 % 16)) * 4096 + hexVal (hexDigit (n / 256 % 16)) * 256 +
      hexVal (hexDigit (n / 16 % 16)) * 16 + hexVal (hexDigit (n % 16)) = n := by
  rw [hexVal_hexDigit _ (Nat.mod_lt _ (by norm_num)),
    hexVal_hexDigit _ (Nat.mod_lt _ (by norm_num)),
    hexVal_hexDigit _ (Nat.mod_lt _ (by norm_num)),
    hexVal_hexDigit _ (Nat.mod_lt _ (by norm_num))]
  omega

theorem char_toNat_valid (c : Char) :
    c.toNat < 55296 ∨ (57343 < c.toNat ∧ c.toNat < 1114112) := c.valid

theorem unescChar_escChar (c : Char) (t : List Char) :
    unescChar (escChar c ++ t) = some (c, t) := by
  have hv := char_toNat_valid c
  by_cases h34 : c.toNat = 34
  · have he : escChar c = [Char.ofNat 92, Char.ofNat 34] := by
      simp [escChar, h34]
    have hc : Char.ofNat 34 = c := by rw [← h34, Char.ofNat_toNat]
    rw [he, ← hc]
    simp [unescChar, (by decide : (Char.ofNat 92).toNat = 92),
      (by decide : (Char.ofNat 34).toNat = 34)]
  by_cases h92 : c.toNat = 92
  · have he : escChar c = [Char.ofNat 92, Char.ofNat 92] := by
      simp [escChar, h34, h92]
    have hc : Char.ofNat 92 = c := by rw [← h92, Char.ofNat_toNat]
    rw [he, ← hc]
    simp [unescChar, (by decide : (Char.ofNat 92).toNat = 92)]
  by_cases h10 : c.toNat = 10
  · have he : escChar c = [Char.ofNat 92, 'n'] := by
      simp [escChar, h34, h92, h10]
    have hc : Char.ofNat 10 = c := by rw [← h10, Char.ofNat_toNat]
    rw [he, ← hc]
    simp [unescChar, (by decide : (Char.ofNat 92).toNat = 92),
      (by decide : ('n').toNat = 110)]
  by_cases h13 : c.toNat = 13
  · have he : escChar c = [Char.ofNat 92, 'r'] := by
      simp [escChar, h34, h92, h10, h13]
    have hc : Char.ofNat 13 = c := by rw [← h13, Char.ofNat_toNat]
    rw [he, ← hc]
    simp [unescChar, (by decide : (Char.ofNat 92).toNat = 92),
      (by decide : ('r').toNat = 114)]
  by_cases h9 : c.toNat = 9
  · have he : escChar c = [Char.ofNat 92, 't'] := by
      simp [escChar, h34, h92, h10, h13, h9]
    have hc : Char.ofNat 9 = c := by rw [← h9, Char.ofNat_toNat]
    rw [he, ← hc]
    simp [unescChar, (by decide : (Char.ofNat 92).toNat = 92),
      (by decide : ('t').toNat = 116)]
  by_cases h8 : c.toNat = 8
  · have he : escChar c = [Char.ofNat 92, 'b'] := by
      simp [escChar, h34, h92, h10, h13, h9, h8]
    have hc : Char.ofNat 8 = c := by rw [← h8, Char.ofNat_toNat]
    rw [he, ← hc]
    simp [unescChar, (by decide : (Char.ofNat 92).toNat = 92),
      (by decide : ('b').toNat = 98)]
  by_cases h12 : c.toNat = 12
  · have he : escChar c = [Char.ofNat 92, 'f'] := by
      simp [escChar, h34, h92, h10, h13, h9, h8, h12]
    have hc : Char.ofNat 12 = c := by rw [← h12, Char.ofNat_toNat]
    rw [he, ← hc]
    simp [unescChar, (by decide : (Char.ofNat 92).toNat = 92),
      (by decide : ('f').toNat = 102)]
  by_cases hesc : c.toNat < 32 ∨ 126 < c.toNat
  · by_cases hbmp : c.toNat < 65536
    · have hns : ¬(55296 ≤ c.toNat ∧ c.toNat ≤ 56319) := by
        rcases hv with h | h
        · omega
        · omega
      have hval := hex4_val c.toNat hbmp
      have he : escChar c = Char.ofNat 92 :: 'u' :: hex4 c.toNat := by
        simp [escChar, h34, h92, h10, h13, h9, h8, h12, hesc, hbmp]
      rw [he]
      simp [unescChar, hex4, hval, hns, (by decide : (Char.ofNat 92).toNat = 92),
        (by decide : ('u').toNat = 117)]
    · have hup : c.toNat < 1114112 := by
        rcases hv with h | h
        · omega
        · omega
      have hval1 := hex4_val (55296 + (c.toNat - 65536) / 1024) (by omega)
      have hval2 := hex4_val (56320 + (c.toNat - 65536) % 1024) (by omega)
      have hcond1 : 55296 ≤ 55296 + (c.toNat - 65536) / 1024 := by omega
      have hcond2 : 55296 + (c.toNat - 65536) / 1024 ≤ 56319 := by omega
      have harith : 65536 + (55296 + (c.toNat - 65536) / 1024 - 55296) * 1024 +
          (56320 + (c.toNat - 65536) % 1024 - 56320) = c.toNat := by omega
      have he : escChar c = Char.ofNat 92 :: 'u' :: hex4 (55296 + (c.toNat - 65536) / 1024) ++
          (Char.ofNat 92 :: 'u' :: hex4 (56320 + (c.toNat - 65536) % 1024)) := by
        simp [escChar, h34, h92, h10, h13, h9, h8, h12, hesc, hbmp]
      rw [he]
      simp [unescChar, hex4, hval1, hval2, hcond1, hcond2, harith,
        (by decide : (Char.ofNat 92).toNat = 92), (by decide : ('u').toNat = 117)]
      rw [show 65536 + (c.toNat - 65536) / 1024 * 1024 + (c.toNat - 65536) % 1024
          = c.toNat from by omega]
      exact Char.ofNat_toNat c
  · have he : escChar c = [c] := by
      simp [escChar, h34, h92, h10, h13, h9, h8, h12, hesc]
    rw [he]
    simp [unescChar, h92]

theorem escChar_head (c : Char) :
    ∃ h tl, escChar c = h :: tl ∧ h.toNat ≠ 34 := by
  by_cases h34 : c.toNat = 34
  · exact ⟨Char.ofNat 92, [Char.ofNat 34], by simp [escChar, h34], by decide⟩
  by_cases h92 : c.toNat = 92
  · exact ⟨Char.ofNat 92, [Char.ofNat 92], by simp [escChar, h34, h92], by decide⟩
  by_cases h10 : c.toNat = 10
  · exact ⟨Char.ofNat 92, ['n'], by simp [escChar, h34, h92, h10], by decide⟩
  by_cases h13 : c.toNat = 13
  · exact ⟨Char.ofNat 92, ['r'], by simp [escChar, h34, h92, h10, h13], by decide⟩
  by_cases h9 : c.toNat = 9
  · exact ⟨Char.ofNat 92, ['t'], by simp [escChar, h34, h92, h10, h13, h9], by decide⟩
  by_cases h8 : c.toNat = 8
  · exact ⟨Char.ofNat 92, ['b'], by simp [escChar, h34, h92, h10, h13, h9, h8], by decide⟩
  by_cases h12 : c.toNat = 12
  · exact ⟨Char.ofNat 92, ['f'], by simp [escChar, h34, h92, h10, h13, h9, h8, h12], by decide⟩
  by_cases hesc : c.toNat < 32 ∨ 126 < c.toNat
  · by_cases hbmp : c.toNat < 65536
    · exact ⟨Char.ofNat 92, 'u' :: hex4 c.toNat,
        by simp [escChar, h34, h92, h10, h13, h9, h8, h12, hesc, hbmp], by decide⟩
    · exact ⟨Char.ofNat 92, ('u' :: hex4 (55296 + (c.toNat - 65536) / 1024)) ++
          (Char.ofNat 92 :: 'u' :: hex4 (56320 + (c.toNat - 65536) % 1024)),
        by simp [escChar, h34, h92, h10, h13, h9, h8, h12, hesc, hbmp], by decide⟩
  · exact ⟨c, [], by simp [escChar, h34, h92, h10, h13, h9, h8, h12, hesc], h34⟩

theorem escape_flat_inj_suffix :
    ∀ (s1 s2 A B : List Char),
      (s1.map escChar).flatten ++ Char.ofNat 34 :: A =
        (s2.map escChar).flatten ++ Char.ofNat 34 :: B →
      s1 = s2 ∧ A = B := by
  intro s1
  induction s1 with
  | nil =>
    intro s2 A B h
    cases s2 with
    | nil => simpa using h
    | cons b s2x =>
      obtain ⟨hd, tl, he, hne⟩ := escChar_head b
      simp only [List.map_nil, List.flatten_nil, List.nil_append, List.map_cons,
        List.flatten_cons, he, List.cons_append, List.append_assoc] at h
      exact absurd (congrArg Char.toNat (List.cons.injEq _ _ _ _ ▸ h).1)
        (by simpa using hne.symm)
  | cons a s1x ih =>
    intro s2 A B h
    cases s2 with
    | nil =>
      obtain ⟨hd, tl, he, hne⟩ := escChar_head a
      simp only [List.map_nil, List.flatten_nil, List.nil_append, List.map_cons,
        List.flatten_cons, he, List.cons_append, List.append_assoc] at h
      exact absurd (congrArg Char.toNat (List.cons.injEq _ _ _ _ ▸ h).1)
        (by simpa using hne)
    | cons b s2x =>
      simp only [List.map_cons, List.flatten_cons, List.append_assoc] at h
      have h2 := congrArg unescChar h
      rw [unescChar_escChar, unescChar_escChar] at h2
      have hab : a = b := (Prod.mk.injEq _ _ _ _ ▸ (Option.some.injEq _ _ ▸ h2)).1
      have hrest := (Prod.mk.injEq _ _ _ _ ▸ (Option.some.injEq _ _ ▸ h2)).2
      obtain ⟨hs, hA⟩ := ih s2x A B hrest
      exact ⟨by rw [hab, hs], hA⟩

theorem msgJson_inj_suffix (m1 m2 : Message) (A B : List Char)
    (h : msgJson m1 ++ A = msgJson m2 ++ B) : m1 = m2 ∧ A = B := by
  simp only [msgJson, jsonQuote, List.append_assoc, List.cons_append,
    List.singleton_append, List.nil_append, List.cons.injEq, true_and] at h
  obtain ⟨hrole, hR⟩ := escape_flat_inj_suffix _ _ _ _ h
  simp only [List.cons.injEq, true_and] at hR
  obtain ⟨hcont, hR2⟩ := escape_flat_inj_suffix _ _ _ _ hR
  simp only [List.cons.injEq, true_and] at hR2
  refine ⟨?_, hR2⟩
  cases m1
  cases m2
  simp only at hrole hcont
  rw [Message.mk.injEq]
  exact ⟨String.ext hrole, String.ext hcont⟩

theorem msgJson_head (m : Message) :
    ∃ Z, msgJson m = Char.ofNat 123 :: Z := by
  refine ⟨"\"role\": ".data ++ jsonQuote m.role ++ ", \"content\": ".data ++
    jsonQuote m.content ++ "\x7d".data, ?_⟩
  rw [msgJson, show ("\x7b\"role\": ".data) = Char.ofNat 123 :: "\"role\": ".data from by decide]
  simp [List.cons_append, List.append_assoc]

theorem inter_head (m : Message) (t : List Message) :
    ∃ Y, List.intercalate ", ".data ((m :: t).map msgJson) ++ [Char.ofNat 93] =
      msgJson m ++ Y := by
  cases t with
  | nil =>
    exact ⟨[Char.ofNat 93], by rw [List.map_cons, List.map_nil, intercalate_single]⟩
  | cons m2 t2 =>
    refine ⟨", ".data ++ (List.intercalate ", ".data ((m2 :: t2).map msgJson) ++
      [Char.ofNat 93]), ?_⟩
    rw [List.map_cons, List.map_cons, intercalate_cons_two]
    simp [List.append_assoc]

theorem dumps_body_inj :
    ∀ (l1 l2 : List Message),
      List.intercalate ", ".data (l1.map msgJson) ++ [Char.ofNat 93] =
        List.intercalate ", ".data (l2.map msgJson) ++ [Char.ofNat 93] →
      l1 = l2 := by
  intro l1
  induction l1 with
  | nil =>
    intro l2 h
    cases l2 with
    | nil => rfl
    | cons m2 t2 =>
      exfalso
      obtain ⟨Y, hY⟩ := inter_head m2 t2
      rw [hY] at h
      obtain ⟨Z, hZ⟩ := msgJson_head m2
      rw [hZ, List.cons_append] at h
      rw [List.map_nil, show List.intercalate ", ".data ([] : List (List Char)) = [] from rfl,
        List.nil_append] at h
      exact absurd (List.cons.injEq _ _ _ _ ▸ h).1 (by decide)
  | cons m1 t1 ih =>
    intro l2 h
    cases l2 with
    | nil =>
      exfalso
      obtain ⟨Y, hY⟩ := inter_head m1 t1
      rw [hY] at h
      obtain ⟨Z, hZ⟩ := msgJson_head m1
      rw [hZ, List.cons_append] at h
      rw [List.map_nil, show List.intercalate ", ".data ([] : List (List Char)) = [] from rfl,
        List.nil_append] at h
      exact absurd (List.cons.injEq _ _ _ _ ▸ h.symm).1 (by decide)
    | cons m2 t2 =>
      simp only [List.map_cons] at h
      cases t1 with
      | nil =>
        cases t2 with
        | nil =>
          rw [List.map_nil, intercalate_single, intercalate_single] at h
          obtain ⟨hm, -⟩ := msgJson_inj_suffix _ _ _ _ h
          rw [hm]
        | cons m2x t2x =>
          exfalso
          rw [List.map_nil, intercalate_single, List.map_cons, intercalate_cons_two,
            List.append_assoc, List.append_assoc] at h
          obtain ⟨-, habs⟩ := msgJson_inj_suffix _ _ _ _ h
          simp only [List.cons_append, List.nil_append] at habs
          exact absurd (List.cons.injEq _ _ _ _ ▸ habs).1 (by decide)
      | cons m1x t1x =>
        cases t2 with
        | nil =>
          exfalso
          rw [List.map_nil, intercalate_single, List.map_cons, intercalate_cons_two,
            List.append_assoc, List.append_assoc] at h
          obtain ⟨-, habs⟩ := msgJson_inj_suffix _ _ _ _ h
          simp only [List.cons_append, List.nil_append] at habs
          exact absurd (List.cons.injEq _ _ _ _ ▸ habs.symm).1 (by decide)
        | cons m2x t2x =>
          simp only [List.map_cons] at h
          rw [intercalate_cons_two, intercalate_cons_two] at h
          simp only [List.append_assoc] at h
          obtain ⟨hm, htail⟩ := msgJson_inj_suffix _ _ _ _ h
          have happend := List.append_cancel_left htail
          have hform : List.intercalate ", ".data (List.map msgJson (m1x :: t1x)) ++
              [Char.ofNat 93] = List.intercalate ", ".data (List.map msgJson (m2x :: t2x)) ++
              [Char.ofNat 93] := by
            simp only [List.map_cons]
            exact happend
          have hrest := ih (m2x :: t2x) hform
          rw [hm, hrest]

theorem pyJsonDumps_inj (l1 l2 : List Message)
    (h : pyJsonDumps l1 = pyJsonDumps l2) : l1 = l2 := by
  unfold pyJsonDumps at h
  have h2 : Char.ofNat 91 :: (List.intercalate ", ".data (l1.map msgJson) ++ [Char.ofNat 93]) =
      Char.ofNat 91 :: (List.intercalate ", ".data (l2.map msgJson) ++ [Char.ofNat 93]) := by
    have := congrArg String.data h
    simpa using this
  exact dumps_body_inj l1 l2 (List.cons.injEq _ _ _ _ ▸ h2).2

theorem normalized_prompt_eq (p : String) :
    String.mk (List.intercalate [' '] (pyWords (pyStrip p).data)) = normalizePromptSpec p := by
  unfold normalizePromptSpec
  apply congrArg String.mk
  have hd : (pyStrip p).data = trimWsL p.data := rfl
  rw [hd, pyWords_trim]
  exact normalize_main p.data.length p.data le_rfl

theorem get_context_hash_eq (md5hex : String → String) (messages : List Message) :
    get_context_hash md5hex messages =
      String.mk ((md5hex (pyJsonDumps (recentNonSystem messages))).data.take 8) := by
  unfold get_context_hash recentNonSystem
  by_cases h : messages.length > 5
  · simp only [if_pos h]
  · simp only [if_neg h]
    rw [show messages.length - 5 = 0 from by omega, List.drop_zero]

theorem cacheKey_eq_key (sha256hex md5hex : String → String) (prompt model : String)
    (messages : List Message) :
    cacheKey sha256hex md5hex prompt model messages =
      String.mk ((sha256hex (key_string_of md5hex prompt model messages)).data.take 16) := rfl

/-- C4: for every prompt, model and message list the cache fingerprint is the
first 16 hex characters of the digest of
"<normalizedPrompt>|<model>|<contextHash>", where the normalized prompt
collapses every whitespace run to a single space and trims, and the context
hash is the first 8 hex characters of the digest of the JSON array of the
last 5 messages excluding the system-role ones; consequently a different
model, or a different recent non-system context, yields a different
fingerprint, given that the truncated digests of the (distinct) strings
involved do not collide. -/
theorem C4_cache_key_construction (sha256hex md5hex : String → String)
    (prompt model model2 : String) (messages messages2 : List Message) :
    cacheKey sha256hex md5hex prompt model messages =
      String.mk ((sha256hex (normalizePromptSpec prompt ++ "|" ++ model ++ "|" ++
        String.mk ((md5hex (pyJsonDumps (recentNonSystem messages))).data.take 8))).data.take
          16) ∧
    (model ≠ model2 →
      ((sha256hex (key_string_of md5hex prompt model messages)).data.take 16 =
          (sha256hex (key_string_of md5hex prompt model2 messages)).data.take 16 →
        key_string_of md5hex prompt model messages =
          key_string_of md5hex prompt model2 messages) →
      cacheKey sha256hex md5hex prompt model messages ≠
        cacheKey sha256hex md5hex prompt model2 messages) ∧
    (recentNonSystem messages ≠ recentNonSystem messages2 →
      ((md5hex (pyJsonDumps (recentNonSystem messages))).data.take 8 =
          (md5hex (pyJsonDumps (recentNonSystem messages2))).data.take 8 →
        pyJsonDumps (recentNonSystem messages) = pyJsonDumps (recentNonSystem messages2)) →
      ((sha256hex (key_string_of md5hex prompt model messages)).data.take 16 =
          (sha256hex (key_string_of md5hex prompt model messages2)).data.take 16 →
        key_string_of md5hex prompt model messages =
          key_string_of md5hex prompt model messages2) →
      cacheKey sha256hex md5hex prompt model messages ≠
        cacheKey sha256hex md5hex prompt model messages2) := by
  refine ⟨?_, ?_, ?_⟩
  · rw [cacheKey_eq_key, key_string_of, normalized_prompt_eq, get_context_hash_eq]
  · intro hm hcf heq
    apply hm
    rw [cacheKey_eq_key, cacheKey_eq_key] at heq
    have h1 := hcf (congrArg String.data heq)
    have h3 := congrArg String.data h1
    simp only [key_string_of, String.data_append] at h3
    have h4 := List.append_cancel_right h3
    have h5 := List.append_cancel_right h4
    exact String.ext (List.append_cancel_left h5)
  · intro hctx hmd5 hsha heq
    apply hctx
    rw [cacheKey_eq_key, cacheKey_eq_key] at heq
    have h1 := hsha (congrArg String.data heq)
    have h3 := congrArg String.data h1
    simp only [key_string_of, String.data_append] at h3
    have h5 : get_context_hash md5hex messages = get_context_hash md5hex messages2 :=
      String.ext (List.append_cancel_left h3)
    rw [get_context_hash_eq, get_context_hash_eq] at h5
    exact pyJsonDumps_inj _ _ (hmd5 (congrArg String.data h5))

theorem C4_cache_key_construction_witness :
    cacheKey (fun s => s) (fun s => s) "a" "m" [] ≠
        cacheKey (fun s => s) (fun s => s) "a" "n" [] ∧
      cacheKey (fun s => s) (fun s => s) "a" "m" [] ≠
        cacheKey (fun s => s) (fun s => s) "a" "m" [⟨"user", "x"⟩] :=
  ⟨(C4_cache_key_construction (fun s => s) (fun s => s) "a" "m" "n" []
      [⟨"user", "x"⟩]).2.1 (by decide) (by decide),
    (C4_cache_key_construction (fun s => s) (fun s => s) "a" "m" "n" []
      [⟨"user", "x"⟩]).2.2 (by decide) (by decide) (by decide)⟩
